import Mathlib

/-!
# k91man watch face: embedding of `k91man_face.c`

The face renders the current time or a countdown to 17:00, keeps a handful of
indicators in step and asks for an hourly background wake.  The C code talks to
the watch through the `watch_*` / `movement_*` library; here the hardware is an
explicit `Watch` value that every primitive transforms, and each call into the
library is appended to `Watch.log`, so that theorems can speak about which
calls a function made and in which order.

Machine integers are natural numbers reduced modulo `2 ^ 32` (or the width of
the bit field) wherever the C arithmetic can wrap.
-/

namespace K91man

/-! ## Data model -/

/-- Modelled from the spec: the packed date-time of the RTC (`watch_date_time`, declared in
`watch.h`, which is not part of the source tree).  The six bit fields of `unit`, from the least
significant bit upwards: seconds and minutes take six bits each (the refresh planner compares
"the top 26 bits" and "the top 20 bits"), then hour (5), day (5), month (4) and year offset (6). -/
structure watch_date_time where
  second : Fin 64
  minute : Fin 64
  hour : Fin 32
  day : Fin 32
  month : Fin 16
  year : Fin 64
  deriving DecidableEq, Repr

/-- The `reg` view of the union: the same six fields as one 32-bit integer. -/
def watch_date_time.reg (dt : watch_date_time) : Nat :=
  dt.second.val + 64 * dt.minute.val + 4096 * dt.hour.val + 131072 * dt.day.val
    + 4194304 * dt.month.val + 67108864 * dt.year.val

/-- Reading a 32-bit register value back through the bit fields of `unit`. -/
def watch_date_time.of_reg (r : Nat) : watch_date_time :=
  { second := ⟨r % 64, Nat.mod_lt _ (by decide)⟩
    minute := ⟨r / 64 % 64, Nat.mod_lt _ (by decide)⟩
    hour := ⟨r / 4096 % 32, Nat.mod_lt _ (by decide)⟩
    day := ⟨r / 131072 % 32, Nat.mod_lt _ (by decide)⟩
    month := ⟨r / 4194304 % 16, Nat.mod_lt _ (by decide)⟩
    year := ⟨r / 67108864 % 64, Nat.mod_lt _ (by decide)⟩ }

/-- Modelled from the spec: the settings surface the face reads (`movement_settings_t`, declared
in `movement.h`): 12/24-hour mode flag, 24-hour leading-zero option, alarm-enabled flag and the
timezone index. -/
structure movement_settings_t where
  clock_mode_24h : Bool
  clock_24h_leading_zero : Bool
  alarm_enabled : Bool
  time_zone : Fin 64
  deriving DecidableEq, Repr

/-- Modelled from the spec: the per-instance state of section 3 (`k91man_state_t`, declared in
`k91man_face.h`, which is not part of the source tree). -/
structure k91man_state_t where
  previous_date_time : Nat
  last_battery_check : Nat
  watch_face_index : Nat
  signal_enabled : Bool
  battery_low : Bool
  alarm_enabled : Bool
  deriving DecidableEq, Repr

/-- The event types `k91man_face_loop` distinguishes; every other event type of the host is
`EVENT_OTHER`. -/
inductive movement_event_type_t where
  | EVENT_ACTIVATE
  | EVENT_TICK
  | EVENT_LOW_ENERGY_UPDATE
  | EVENT_BACKGROUND_TASK
  | EVENT_ALARM_LONG_PRESS
  | EVENT_OTHER (code : Nat)
  deriving DecidableEq, Repr

structure movement_event_t where
  event_type : movement_event_type_t
  subsecond : Nat
  deriving DecidableEq, Repr

inductive WatchIndicatorSegment where
  | WATCH_INDICATOR_SIGNAL
  | WATCH_INDICATOR_BELL
  | WATCH_INDICATOR_PM
  | WATCH_INDICATOR_24H
  | WATCH_INDICATOR_LAP
  deriving DecidableEq, Repr

open WatchIndicatorSegment movement_event_type_t

/-- One call into the watch library, as recorded in `Watch.log`. -/
inductive Call where
  | set_indicator (i : WatchIndicatorSegment)
  | clear_indicator (i : WatchIndicatorSegment)
  | set_colon
  | display_string (s : List Char) (pos : Nat)
  | display_character_lp_seconds (c : Nat) (pos : Nat)
  | start_tick_animation (duration : Nat)
  | stop_tick_animation
  | enable_adc
  | get_vcc_voltage
  | disable_adc
  | play_signal
  | default_loop_handler
  deriving DecidableEq, Repr

/-- The hardware as the face sees it: what the RTC and the voltage sensor would answer, the
indicator segments, the tick animation, the ADC, and the log of library calls made so far. -/
structure Watch where
  rtc : watch_date_time
  vcc : Nat
  signal : Bool
  bell : Bool
  pm : Bool
  h24 : Bool
  lap : Bool
  colon : Bool
  tick_animation : Bool
  adc : Bool
  log : List Call
  deriving DecidableEq, Repr

/-- Modelled from the spec: the collaborators of section 6 whose code is not in the source tree,
and the build-time constants of the headers.  `watch_utility_convert_to_unix_time` takes year,
month, day, hour, minute, second and the UTC offset in seconds. -/
structure Platform where
  CLOCK_FACE_24H_ONLY : Bool
  WATCH_RTC_REFERENCE_YEAR : Nat
  movement_timezone_offsets : Nat → Int
  watch_utility_get_weekday : watch_date_time → List Char
  watch_utility_convert_to_unix_time : Nat → Nat → Nat → Nat → Nat → Nat → Nat → Nat
  watch_utility_date_time_to_unix_time : watch_date_time → Nat → Nat
  movement_default_loop_handler : movement_event_t → movement_settings_t → Bool

/-- Modelled from the spec: `watch_duration_t` of `watch_utility.h`. -/
structure watch_duration_t where
  seconds : Nat
  minutes : Nat
  hours : Nat
  days : Nat
  deriving DecidableEq, Repr

/-! ## Library primitives -/

/-- Modelled from the spec: `setIndicator(kind)`. -/
def watch_set_indicator (i : WatchIndicatorSegment) (w : Watch) : Watch :=
  let w := { w with log := w.log ++ [Call.set_indicator i] }
  match i with
  | WATCH_INDICATOR_SIGNAL => { w with signal := true }
  | WATCH_INDICATOR_BELL => { w with bell := true }
  | WATCH_INDICATOR_PM => { w with pm := true }
  | WATCH_INDICATOR_24H => { w with h24 := true }
  | WATCH_INDICATOR_LAP => { w with lap := true }

/-- Modelled from the spec: `clearIndicator(kind)`. -/
def watch_clear_indicator (i : WatchIndicatorSegment) (w : Watch) : Watch :=
  let w := { w with log := w.log ++ [Call.clear_indicator i] }
  match i with
  | WATCH_INDICATOR_SIGNAL => { w with signal := false }
  | WATCH_INDICATOR_BELL => { w with bell := false }
  | WATCH_INDICATOR_PM => { w with pm := false }
  | WATCH_INDICATOR_24H => { w with h24 := false }
  | WATCH_INDICATOR_LAP => { w with lap := false }

/-- Modelled from the spec: `setColonSeparator()`. -/
def watch_set_colon (w : Watch) : Watch :=
  { w with colon := true, log := w.log ++ [Call.set_colon] }

/-- Modelled from the spec: `displayString(buffer, startColumn)`. -/
def watch_display_string (s : List Char) (pos : Nat) (w : Watch) : Watch :=
  { w with log := w.log ++ [Call.display_string s pos] }

/-- Modelled from the spec: `displayCharacterAt(char, column)`; the character is a `uint8_t`. -/
def watch_display_character_lp_seconds (c : Nat) (pos : Nat) (w : Watch) : Watch :=
  { w with log := w.log ++ [Call.display_character_lp_seconds (c % 256) pos] }

/-- Modelled from the spec: `isTickAnimationRunning()`. -/
def watch_tick_animation_is_running (w : Watch) : Bool := w.tick_animation

/-- Modelled from the spec: `startTickAnimation(intervalMs)`. -/
def watch_start_tick_animation (duration : Nat) (w : Watch) : Watch :=
  { w with tick_animation := true, log := w.log ++ [Call.start_tick_animation duration] }

/-- Modelled from the spec: `stopTickAnimation()`. -/
def watch_stop_tick_animation (w : Watch) : Watch :=
  { w with tick_animation := false, log := w.log ++ [Call.stop_tick_animation] }

/-- Modelled from the spec: `enableVoltageSensor()`. -/
def watch_enable_adc (w : Watch) : Watch :=
  { w with adc := true, log := w.log ++ [Call.enable_adc] }

/-- Modelled from the spec: `disableVoltageSensor()`. -/
def watch_disable_adc (w : Watch) : Watch :=
  { w with adc := false, log := w.log ++ [Call.disable_adc] }

/-- Modelled from the spec: `readVoltageMillivolts()`; the result is a `uint16_t`. -/
def watch_get_vcc_voltage (w : Watch) : Nat × Watch :=
  (w.vcc % 65536, { w with log := w.log ++ [Call.get_vcc_voltage] })

/-- Modelled from the spec: `getCurrentDateTime()`. -/
def watch_rtc_get_date_time (w : Watch) : watch_date_time := w.rtc

/-- Modelled from the spec: `playChime()`. -/
def movement_play_signal (w : Watch) : Watch :=
  { w with log := w.log ++ [Call.play_signal] }

/-- Modelled from the spec: `secondsToDuration(seconds) -> {days, hours, minutes, seconds}`, the
usual decomposition of a number of seconds (`watch_utility_seconds_to_duration`). -/
def watch_utility_seconds_to_duration (seconds : Nat) : watch_duration_t :=
  { seconds := seconds % 60
    minutes := seconds % 3600 / 60
    hours := seconds % 86400 / 3600
    days := seconds / 86400 }

/-! ## `sprintf` conversions -/

/-- Left padding of `s` with `c` up to `width` characters. -/
def pad_left (width : Nat) (c : Char) (s : List Char) : List Char :=
  List.replicate (width - s.length) c ++ s

/-- The conversion `%2d` of `sprintf`: decimal digits, sign first, padded with blanks to at least
two characters. -/
def fmt_2d (v : Int) : List Char :=
  pad_left 2 ' ' ((if v < 0 then ['-'] else []) ++ Nat.toDigits 10 v.natAbs)

/-- The conversion `%02d` of `sprintf`: as `%2d`, padded with zeros after the sign. -/
def fmt_02d (v : Int) : List Char :=
  if v < 0 then '-' :: pad_left 1 '0' (Nat.toDigits 10 v.natAbs)
  else pad_left 2 '0' (Nat.toDigits 10 v.natAbs)

/-- The cast `(int)x` of a `uint32_t`. -/
def int_of_uint32 (x : Nat) : Int :=
  if x % 4294967296 < 2147483648 then (x % 4294967296 : Nat) else (x % 4294967296 : Nat) - 4294967296

/-! ## The face (`k91man_face.c`) -/

/-- What a formatter hands back through its out-parameters, with the watch it leaves behind. -/
structure Formatted where
  buf : List Char
  pos : Nat
  set_leading_zero : Bool
  watch : Watch
  deriving DecidableEq, Repr

def _update_alarm_indicator (settings_alarm_enabled : Bool) (state : k91man_state_t) (w : Watch) :
    k91man_state_t × Watch :=
  let state := { state with alarm_enabled := settings_alarm_enabled }
  if state.alarm_enabled then (state, watch_set_indicator WATCH_INDICATOR_SIGNAL w)
  else (state, watch_clear_indicator WATCH_INDICATOR_SIGNAL w)

/-- The table entry is an `int16_t` number of minutes; it is cast to `uint32_t` and multiplied
by 60 in 32-bit unsigned arithmetic. -/
def _get_tz_offset_seconds (P : Platform) (settings : movement_settings_t) : Nat :=
  (P.movement_timezone_offsets settings.time_zone.val % 4294967296).toNat * 60 % 4294967296

/-- The context pointer is `none` when null; `fresh` is the content of the memory `malloc`
returns, of which only two fields are initialised. -/
def k91man_face_setup (_settings : movement_settings_t) (watch_face_index : Nat)
    (fresh : k91man_state_t) (context_ptr : Option k91man_state_t) : Option k91man_state_t :=
  match context_ptr with
  | none => some { fresh with signal_enabled := false, watch_face_index := watch_face_index % 256 }
  | some state => some state

def k91man_face_activate (P : Platform) (settings : movement_settings_t) (state : k91man_state_t)
    (w : Watch) : k91man_state_t × Watch :=
  let w := if watch_tick_animation_is_running w then watch_stop_tick_animation w else w
  let w :=
    if P.CLOCK_FACE_24H_ONLY then watch_set_indicator WATCH_INDICATOR_24H w
    else if settings.clock_mode_24h then watch_set_indicator WATCH_INDICATOR_24H w else w
  let w :=
    if state.signal_enabled then watch_set_indicator WATCH_INDICATOR_BELL w
    else watch_clear_indicator WATCH_INDICATOR_BELL w
  let r := _update_alarm_indicator settings.alarm_enabled state w
  let w := watch_set_colon r.2
  ({ r.1 with previous_date_time := 0xFFFFFFFF }, w)

def _format_standard_time (P : Platform) (dt : watch_date_time) (settings : movement_settings_t)
    (set_leading_zero : Bool) (low_energy : Bool) (w : Watch) : Formatted :=
  let r : watch_date_time × Watch :=
    if !P.CLOCK_FACE_24H_ONLY && !settings.clock_mode_24h then
      let w :=
        if dt.hour < 12 then watch_clear_indicator WATCH_INDICATOR_PM w
        else watch_set_indicator WATCH_INDICATOR_PM w
      let dt := { dt with hour := dt.hour % 12 }
      let dt := if dt.hour = 0 then { dt with hour := 12 } else dt
      (dt, w)
    else (dt, w)
  let dt := r.1
  let w := r.2
  let set_leading_zero :=
    if settings.clock_mode_24h && settings.clock_24h_leading_zero && decide (dt.hour < 10) then true
    else set_leading_zero
  if low_energy then
    let w := if !watch_tick_animation_is_running w then watch_start_tick_animation 500 w else w
    { buf := P.watch_utility_get_weekday dt ++ fmt_2d dt.day.val ++ fmt_2d dt.hour.val
        ++ fmt_02d dt.minute.val ++ [' ', ' ']
      pos := 0, set_leading_zero := set_leading_zero, watch := w }
  else
    { buf := P.watch_utility_get_weekday dt ++ fmt_2d dt.day.val ++ fmt_2d dt.hour.val
        ++ fmt_02d dt.minute.val ++ fmt_02d dt.second.val
      pos := 0, set_leading_zero := set_leading_zero, watch := w }

def _format_countdown_to_5pm (P : Platform) (now_dt : watch_date_time)
    (settings : movement_settings_t) (low_energy : Bool) (w : Watch) : Formatted :=
  let tz := _get_tz_offset_seconds P settings
  let now_ts := P.watch_utility_date_time_to_unix_time now_dt tz % 4294967296
  let target_ts := P.watch_utility_convert_to_unix_time
    ((now_dt.year.val + P.WATCH_RTC_REFERENCE_YEAR) % 65536) now_dt.month.val now_dt.day.val
    17 0 0 tz % 4294967296
  let diff := if now_ts < target_ts then (target_ts + 4294967296 - now_ts) % 4294967296 else 0
  let diff_adj := if diff > 0 then (diff + 4294967296 - 1) % 4294967296 else 0
  let dur := watch_utility_seconds_to_duration diff_adj
  let hours_total := (dur.hours + dur.days * 24) % 4294967296
  if low_energy then
    let w := if !watch_tick_animation_is_running w then watch_start_tick_animation 500 w else w
    { buf := [' ', ' ', ' ', ' '] ++ fmt_02d (int_of_uint32 hours_total) ++ fmt_02d dur.minutes
        ++ [' ', ' ']
      pos := 0, set_leading_zero := false, watch := w }
  else
    { buf := [' ', ' ', ' ', ' '] ++ fmt_02d (int_of_uint32 hours_total) ++ fmt_02d dur.minutes
        ++ fmt_02d dur.seconds
      pos := 0, set_leading_zero := false, watch := w }

/-- The countdown branch of the seconds-only path (the copy of the countdown arithmetic in
`k91man_face_loop`, "countdown mode: update seconds field"). -/
def loop_seconds_countdown (P : Platform) (date_time : watch_date_time)
    (settings : movement_settings_t) (w : Watch) : Watch :=
  let tz := _get_tz_offset_seconds P settings
  let now_ts := P.watch_utility_date_time_to_unix_time date_time tz % 4294967296
  let target_ts := P.watch_utility_convert_to_unix_time
    ((date_time.year.val + P.WATCH_RTC_REFERENCE_YEAR) % 65536) date_time.month.val
    date_time.day.val 17 0 0 tz % 4294967296
  let diff := if now_ts < target_ts then (target_ts + 4294967296 - now_ts) % 4294967296 else 0
  let diff_adj := if diff > 0 then (diff + 4294967296 - 1) % 4294967296 else 0
  let dur := watch_utility_seconds_to_duration diff_adj
  let w := watch_display_character_lp_seconds (48 + dur.seconds / 10) 8 w
  watch_display_character_lp_seconds (48 + dur.seconds % 10) 9 w

/-- The countdown branch of the minutes path (the second copy of the countdown arithmetic in
`k91man_face_loop`); the result is the content of `buf`. -/
def loop_minutes_countdown (P : Platform) (date_time : watch_date_time)
    (settings : movement_settings_t) : List Char :=
  let tz := _get_tz_offset_seconds P settings
  let now_ts := P.watch_utility_date_time_to_unix_time date_time tz % 4294967296
  let target_ts := P.watch_utility_convert_to_unix_time
    ((date_time.year.val + P.WATCH_RTC_REFERENCE_YEAR) % 65536) date_time.month.val
    date_time.day.val 17 0 0 tz % 4294967296
  let diff := if now_ts < target_ts then (target_ts + 4294967296 - now_ts) % 4294967296 else 0
  let diff_adj := if diff > 0 then (diff + 4294967296 - 1) % 4294967296 else 0
  let dur := watch_utility_seconds_to_duration diff_adj
  fmt_02d dur.minutes ++ fmt_02d dur.seconds

/-- The battery check of a refresh (`if (date_time.unit.day != state->last_battery_check)` and
the low-battery indicator after it). -/
def loop_battery_check (date_time : watch_date_time) (state : k91man_state_t) (w : Watch) :
    k91man_state_t × Watch :=
  let r : k91man_state_t × Watch :=
    if date_time.day.val ≠ state.last_battery_check then
      let state := { state with last_battery_check := date_time.day.val }
      let w := watch_enable_adc w
      let v := watch_get_vcc_voltage w
      let voltage := v.1
      let w := watch_disable_adc v.2
      ({ state with battery_low := decide (voltage < 2200) }, w)
    else (state, w)
  let state := r.1
  let w := r.2
  let w := if state.battery_low then watch_set_indicator WATCH_INDICATOR_LAP w else w
  (state, w)

/-- The body of `case EVENT_ACTIVATE: case EVENT_TICK: case EVENT_LOW_ENERGY_UPDATE:` of
`k91man_face_loop`. -/
def loop_refresh (P : Platform) (event : movement_event_t) (settings : movement_settings_t)
    (state : k91man_state_t) (w : Watch) : k91man_state_t × Watch :=
  let date_time := watch_rtc_get_date_time w
  let previous_date_time := state.previous_date_time
  let state := { state with previous_date_time := date_time.reg }
  let r := loop_battery_check date_time state w
  let state := r.1
  let w := r.2
  let low_energy := decide (event.event_type = EVENT_LOW_ENERGY_UPDATE)
  let set_leading_zero := false
  let between_9_and_5 := decide (date_time.hour.val ≥ 9) && decide (date_time.hour.val < 17)
  if date_time.reg >>> 6 = previous_date_time >>> 6 ∧ low_energy = false then
    if !between_9_and_5 then
      let w := watch_display_character_lp_seconds (48 + date_time.second.val / 10) 8 w
      let w := watch_display_character_lp_seconds (48 + date_time.second.val % 10) 9 w
      (state, w)
    else
      (state, loop_seconds_countdown P date_time settings w)
  else
    let f : Formatted :=
      if date_time.reg >>> 12 = previous_date_time >>> 12 ∧ low_energy = false then
        if !between_9_and_5 then
          { buf := fmt_02d date_time.minute.val ++ fmt_02d date_time.second.val
            pos := 6, set_leading_zero := set_leading_zero, watch := w }
        else
          { buf := loop_minutes_countdown P date_time settings
            pos := 6, set_leading_zero := set_leading_zero, watch := w }
      else
        if !between_9_and_5 then
          _format_standard_time P date_time settings set_leading_zero low_energy w
        else
          { _format_countdown_to_5pm P date_time settings low_energy w with
            set_leading_zero := set_leading_zero }
    let w := watch_display_string f.buf f.pos f.watch
    let w := if f.set_leading_zero then watch_display_string ['0'] 4 w else w
    if state.alarm_enabled ≠ settings.alarm_enabled then
      _update_alarm_indicator settings.alarm_enabled state w
    else (state, w)

def k91man_face_loop (P : Platform) (event : movement_event_t) (settings : movement_settings_t)
    (state : k91man_state_t) (w : Watch) : Bool × k91man_state_t × Watch :=
  match event.event_type with
  | EVENT_ACTIVATE => (true, loop_refresh P event settings state w)
  | EVENT_TICK => (true, loop_refresh P event settings state w)
  | EVENT_LOW_ENERGY_UPDATE => (true, loop_refresh P event settings state w)
  | EVENT_ALARM_LONG_PRESS =>
    let state := { state with signal_enabled := !state.signal_enabled }
    let w :=
      if state.signal_enabled then watch_set_indicator WATCH_INDICATOR_BELL w
      else watch_clear_indicator WATCH_INDICATOR_BELL w
    (true, state, w)
  | EVENT_BACKGROUND_TASK => (true, state, movement_play_signal w)
  | EVENT_OTHER _ =>
    (P.movement_default_loop_handler event settings, state,
      { w with log := w.log ++ [Call.default_loop_handler] })

def k91man_face_resign (_settings : movement_settings_t) (state : k91man_state_t) (w : Watch) :
    k91man_state_t × Watch :=
  (state, w)

def k91man_face_wants_background_task (_settings : movement_settings_t) (state : k91man_state_t)
    (w : Watch) : Bool × k91man_state_t × Watch :=
  if !state.signal_enabled then (false, state, w)
  else
    let date_time := watch_rtc_get_date_time w
    (decide (date_time.minute.val = 0), state, w)

/-! ## Observations on a run

The definitions below are not part of the face; they name what the theorems observe: the calls
a function added to the log, the three refresh granularities as they show on the display, and
the countdown as the specification words it. -/

/-- The calls made between watch `w` and the later watch `w'`. -/
def new_calls (w w' : Watch) : List Call := w'.log.drop w.log.length

def is_display_write : Call → Bool
  | Call.display_string _ _ => true
  | Call.display_character_lp_seconds _ _ => true
  | _ => false

/-- The calls of a log that write characters to the display, in order. -/
def display_writes (l : List Call) : List Call := l.filter is_display_write

def is_refresh_event (t : movement_event_type_t) : Bool :=
  t = EVENT_ACTIVATE || t = EVENT_TICK || t = EVENT_LOW_ENERGY_UPDATE

/-- Seconds-only update: exactly two character cells are written, columns 8 and 9, and no
display string is pushed. -/
def seconds_only_update (l : List Call) : Bool :=
  match display_writes l with
  | [Call.display_character_lp_seconds _ p, Call.display_character_lp_seconds _ q] =>
    decide (p = 8) && decide (q = 9)
  | _ => false

/-- Minutes update: exactly one display string is pushed, four characters at column 6. -/
def minutes_update (l : List Call) : Bool :=
  match display_writes l with
  | [Call.display_string s p] => decide (s.length = 4) && decide (p = 6)
  | _ => false

/-- Full reformat: a display string is pushed at column 0, followed by nothing or by the
literal "0" at column 4. -/
def full_update (l : List Call) : Bool :=
  match display_writes l with
  | [Call.display_string _ p] => decide (p = 0)
  | [Call.display_string _ p, Call.display_string z q] =>
    decide (p = 0) && decide (z = ['0']) && decide (q = 4)
  | _ => false

/-- The two timestamps agree on year, month, day and hour. -/
def agree_to_hour (c p : watch_date_time) : Prop :=
  c.year = p.year ∧ c.month = p.month ∧ c.day = p.day ∧ c.hour = p.hour

instance (c p : watch_date_time) : Decidable (agree_to_hour c p) := by
  unfold agree_to_hour
  infer_instance

/-- The two timestamps agree on every field except seconds. -/
def agree_to_minute (c p : watch_date_time) : Prop :=
  agree_to_hour c p ∧ c.minute = p.minute

instance (c p : watch_date_time) : Decidable (agree_to_minute c p) := by
  unfold agree_to_minute
  infer_instance

/-- The current time as absolute time, as the countdown computes it (a `uint32_t`). -/
def unix_now (P : Platform) (settings : movement_settings_t) (dt : watch_date_time) : Nat :=
  P.watch_utility_date_time_to_unix_time dt (_get_tz_offset_seconds P settings) % 4294967296

/-- Today at 17:00:00 as absolute time, as the countdown computes it (a `uint32_t`). -/
def unix_target (P : Platform) (settings : movement_settings_t) (dt : watch_date_time) : Nat :=
  P.watch_utility_convert_to_unix_time ((dt.year.val + P.WATCH_RTC_REFERENCE_YEAR) % 65536)
    dt.month.val dt.day.val 17 0 0 (_get_tz_offset_seconds P settings) % 4294967296

/-- The remaining time in the words of section 4.4: `max(0, target - now)`, minus one second when
it is positive.  Subtraction on `Nat` stops at zero. -/
def countdown_remaining (P : Platform) (settings : movement_settings_t) (dt : watch_date_time) :
    Nat :=
  (unix_target P settings dt - unix_now P settings dt) - 1

/-- Seconds since midnight of the time-of-day fields. -/
def time_of_day (dt : watch_date_time) : Nat :=
  3600 * dt.hour.val + 60 * dt.minute.val + dt.second.val

/-- The assumption on the absolute-time conversion: the timestamps of today 17:00:00 and of `dt`
(same date, same timezone) differ by the difference of their times of day in seconds. -/
def time_of_day_difference (P : Platform) (settings : movement_settings_t)
    (dt : watch_date_time) : Prop :=
  (unix_target P settings dt : Int) - (unix_now P settings dt : Int)
    = 61200 - (time_of_day dt : Int)

instance (P : Platform) (settings : movement_settings_t) (dt : watch_date_time) :
    Decidable (time_of_day_difference P settings dt) := by
  unfold time_of_day_difference
  infer_instance

/-- The two decimal digits of a number below 100. -/
def two_digits (n : Nat) : List Char := [Char.ofNat (48 + n / 10), Char.ofNat (48 + n % 10)]

/-- The string a countdown of `r` seconds renders as: four blanks, then hours (days carried
into them), minutes and, in full power, seconds. -/
def countdown_buf (r : Nat) (low_energy : Bool) : List Char :=
  [' ', ' ', ' ', ' ']
    ++ fmt_02d (int_of_uint32 ((r % 86400 / 3600 + r / 86400 * 24) % 4294967296))
    ++ fmt_02d ((r % 3600 / 60 : Nat) : Int)
    ++ (if low_energy then [' ', ' '] else fmt_02d ((r % 60 : Nat) : Int))

/-- The date-time the standard formatter prints: the hour converted to the 12-hour range unless
24-hour mode is on by setting or by build. -/
def displayed_date_time (P : Platform) (settings : movement_settings_t) (dt : watch_date_time) :
    watch_date_time :=
  if !P.CLOCK_FACE_24H_ONLY && !settings.clock_mode_24h then
    (if dt.hour % 12 = 0 then { dt with hour := 12 } else { dt with hour := dt.hour % 12 })
  else dt

def standard_buf (P : Platform) (settings : movement_settings_t) (dt : watch_date_time)
    (low_energy : Bool) : List Char :=
  let d := displayed_date_time P settings dt
  P.watch_utility_get_weekday d ++ fmt_2d d.day.val ++ fmt_2d d.hour.val ++ fmt_02d d.minute.val
    ++ (if low_energy then [' ', ' '] else fmt_02d d.second.val)

def standard_leading_zero (P : Platform) (settings : movement_settings_t) (dt : watch_date_time)
    (lz : Bool) : Bool :=
  if settings.clock_mode_24h && settings.clock_24h_leading_zero
      && decide ((displayed_date_time P settings dt).hour < 10) then true else lz

/-- The display writes a refresh can make in countdown mode, one per refresh granularity. -/
def countdown_renderings (P : Platform) (settings : movement_settings_t) (c : watch_date_time)
    (low_energy : Bool) : List (List Call) :=
  let r := countdown_remaining P settings c
  [ [Call.display_character_lp_seconds (48 + r % 60 / 10) 8,
      Call.display_character_lp_seconds (48 + r % 60 % 10) 9],
    [Call.display_string (fmt_02d ((r % 3600 / 60 : Nat) : Int) ++ fmt_02d ((r % 60 : Nat) : Int)) 6],
    [Call.display_string (countdown_buf r low_energy) 0] ]

/-- The display writes a refresh can make in standard clock mode, one per refresh granularity
(the full reformat with and without the literal "0"). -/
def standard_renderings (P : Platform) (settings : movement_settings_t) (c : watch_date_time)
    (low_energy : Bool) : List (List Call) :=
  [ [Call.display_character_lp_seconds (48 + c.second.val / 10) 8,
      Call.display_character_lp_seconds (48 + c.second.val % 10) 9],
    [Call.display_string (fmt_02d c.minute.val ++ fmt_02d c.second.val) 6],
    [Call.display_string (standard_buf P settings c low_energy) 0],
    [Call.display_string (standard_buf P settings c low_energy) 0,
      Call.display_string ['0'] 4] ]

/-- One refresh of a sequence: the event, the settings at that time and what the RTC and the
voltage sensor read at that time. -/
structure RefreshStep where
  event : movement_event_t
  settings : movement_settings_t
  rtc : watch_date_time
  vcc : Nat
  deriving DecidableEq, Repr

/-- The watch with the RTC and the voltage sensor reading what the step says. -/
def set_readings (w : Watch) (e : RefreshStep) : Watch :=
  { w with rtc := e.rtc, vcc := e.vcc }

/-- The face run over a sequence of events, the hardware readings changing between events. -/
def run_events (P : Platform) : List RefreshStep → k91man_state_t → Watch → k91man_state_t × Watch
  | [], st, w => (st, w)
  | e :: es, st, w =>
    run_events P es (k91man_face_loop P e.event e.settings st (set_readings w e)).2.1
      (k91man_face_loop P e.event e.settings st (set_readings w e)).2.2

/-- Number of voltage samples in a log. -/
def samples (l : List Call) : Nat := l.count Call.get_vcc_voltage

/-- The calls of a log that concern the voltage sensor, in order. -/
def adc_calls (l : List Call) : List Call :=
  l.filter (fun c => c = Call.enable_adc || c = Call.get_vcc_voltage || c = Call.disable_adc)

/-- The tick-animation calls of a formatter: it starts the animation in low-power mode when it
is not running. -/
def tick_calls (low_energy : Bool) (w : Watch) : List Call :=
  if low_energy && !w.tick_animation then [Call.start_tick_animation 500] else []

/-- The calls the standard formatter makes: the PM indicator in 12-hour mode, then the tick
animation. -/
def standard_calls (P : Platform) (settings : movement_settings_t) (dt : watch_date_time)
    (low_energy : Bool) (w : Watch) : List Call :=
  (if !P.CLOCK_FACE_24H_ONLY && !settings.clock_mode_24h then
    (if dt.hour < 12 then [Call.clear_indicator WATCH_INDICATOR_PM]
     else [Call.set_indicator WATCH_INDICATOR_PM]) else [])
  ++ tick_calls low_energy w

/-- The value of `battery_low` after the battery check of a refresh. -/
def battery_low_after (st : k91man_state_t) (w : Watch) : Bool :=
  if w.rtc.day.val ≠ st.last_battery_check then decide (w.vcc % 65536 < 2200) else st.battery_low

/-- The calls of the battery check of a refresh. -/
def battery_calls (st : k91man_state_t) (w : Watch) : List Call :=
  (if w.rtc.day.val ≠ st.last_battery_check then
    [Call.enable_adc, Call.get_vcc_voltage, Call.disable_adc] else [])
  ++ (if battery_low_after st w then [Call.set_indicator WATCH_INDICATOR_LAP] else [])

/-- The last step of a refresh that pushes a string: resynchronise the alarm indicator when the
setting and the cached mirror disagree. -/
def sync_alarm (settings : movement_settings_t) (st : k91man_state_t) (w : Watch) :
    k91man_state_t × Watch :=
  if st.alarm_enabled ≠ settings.alarm_enabled then
    _update_alarm_indicator settings.alarm_enabled st w
  else (st, w)

/-- The calls of `sync_alarm`. -/
def alarm_calls (settings : movement_settings_t) (st : k91man_state_t) : List Call :=
  if st.alarm_enabled ≠ settings.alarm_enabled then
    [if settings.alarm_enabled then Call.set_indicator WATCH_INDICATOR_SIGNAL
     else Call.clear_indicator WATCH_INDICATOR_SIGNAL]
  else []

/-- The display mode of the current hour: `true` is countdown mode. -/
def countdown_mode (dt : watch_date_time) : Bool :=
  decide (dt.hour.val ≥ 9) && decide (dt.hour.val < 17)

/-- The refresh granularities. -/
inductive RefreshPath where
  | seconds
  | minutes
  | full
  deriving DecidableEq, Repr

/-- The granularity of a refresh, from the conditions of the `if` chain of `loop_refresh`. -/
def refresh_path (c : watch_date_time) (p : Nat) (t : movement_event_type_t) : RefreshPath :=
  if c.reg >>> 6 = p >>> 6 ∧ decide (t = EVENT_LOW_ENERGY_UPDATE) = false then RefreshPath.seconds
  else if c.reg >>> 12 = p >>> 12 ∧ decide (t = EVENT_LOW_ENERGY_UPDATE) = false then
    RefreshPath.minutes
  else RefreshPath.full

/-- The display writes of a refresh, by granularity and display mode. -/
def refresh_display_writes (P : Platform) (event : movement_event_t)
    (settings : movement_settings_t) (st : k91man_state_t) (w : Watch) : List Call :=
  let r := countdown_remaining P settings w.rtc
  let low := decide (event.event_type = EVENT_LOW_ENERGY_UPDATE)
  match refresh_path w.rtc st.previous_date_time event.event_type with
  | RefreshPath.seconds =>
    if countdown_mode w.rtc then
      [Call.display_character_lp_seconds (48 + r % 60 / 10) 8,
        Call.display_character_lp_seconds (48 + r % 60 % 10) 9]
    else
      [Call.display_character_lp_seconds (48 + w.rtc.second.val / 10) 8,
        Call.display_character_lp_seconds (48 + w.rtc.second.val % 10) 9]
  | RefreshPath.minutes =>
    if countdown_mode w.rtc then
      [Call.display_string
        (fmt_02d ((r % 3600 / 60 : Nat) : Int) ++ fmt_02d ((r % 60 : Nat) : Int)) 6]
    else [Call.display_string (fmt_02d w.rtc.minute.val ++ fmt_02d w.rtc.second.val) 6]
  | RefreshPath.full =>
    if countdown_mode w.rtc then [Call.display_string (countdown_buf r low) 0]
    else if standard_leading_zero P settings w.rtc false then
      [Call.display_string (standard_buf P settings w.rtc low) 0, Call.display_string ['0'] 4]
    else [Call.display_string (standard_buf P settings w.rtc low) 0]

/-- The calls of a refresh after the battery check, by granularity and display mode. -/
def refresh_calls (P : Platform) (event : movement_event_t)
    (settings : movement_settings_t) (st : k91man_state_t) (w : Watch) : List Call :=
  let r := countdown_remaining P settings w.rtc
  let low := decide (event.event_type = EVENT_LOW_ENERGY_UPDATE)
  match refresh_path w.rtc st.previous_date_time event.event_type with
  | RefreshPath.seconds =>
    if countdown_mode w.rtc then
      [Call.display_character_lp_seconds (48 + r % 60 / 10) 8,
        Call.display_character_lp_seconds (48 + r % 60 % 10) 9]
    else
      [Call.display_character_lp_seconds (48 + w.rtc.second.val / 10) 8,
        Call.display_character_lp_seconds (48 + w.rtc.second.val % 10) 9]
  | RefreshPath.minutes =>
    (if countdown_mode w.rtc then
      [Call.display_string
        (fmt_02d ((r % 3600 / 60 : Nat) : Int) ++ fmt_02d ((r % 60 : Nat) : Int)) 6]
    else [Call.display_string (fmt_02d w.rtc.minute.val ++ fmt_02d w.rtc.second.val) 6])
    ++ alarm_calls settings st
  | RefreshPath.full =>
    (if countdown_mode w.rtc then tick_calls low w ++ [Call.display_string (countdown_buf r low) 0]
    else if standard_leading_zero P settings w.rtc false then
      standard_calls P settings w.rtc low w
        ++ [Call.display_string (standard_buf P settings w.rtc low) 0, Call.display_string ['0'] 4]
    else standard_calls P settings w.rtc low w
        ++ [Call.display_string (standard_buf P settings w.rtc low) 0])
    ++ alarm_calls settings st

/-- A valid calendar date-time: month 1..12, day 1..31, hour 0..23, minute and second 0..59. -/
def valid_date_time (dt : watch_date_time) : Prop :=
  1 ≤ dt.month.val ∧ dt.month.val ≤ 12 ∧ 1 ≤ dt.day.val ∧ dt.day.val ≤ 31 ∧ dt.hour.val ≤ 23
    ∧ dt.minute.val ≤ 59 ∧ dt.second.val ≤ 59

instance (dt : watch_date_time) : Decidable (valid_date_time dt) := by
  unfold valid_date_time
  infer_instance

/-- The event a long press of the alarm button delivers. -/
def long_press : movement_event_t := { event_type := EVENT_ALARM_LONG_PRESS, subsecond := 0 }

/-- A string with its last two characters replaced by two blanks. -/
def blank_last_two (s : List Char) : List Char := s.take (s.length - 2) ++ [' ', ' ']

/-- The events `k91man_face_loop` handles itself; every other event goes to the default handler
of the host. -/
def handled_by_face (t : movement_event_type_t) : Bool :=
  match t with
  | EVENT_OTHER _ => false
  | _ => true

/-- The calls of `k91man_face_activate`. -/
def activate_calls (P : Platform) (settings : movement_settings_t) (st : k91man_state_t)
    (w : Watch) : List Call :=
  (if w.tick_animation then [Call.stop_tick_animation] else [])
  ++ (if P.CLOCK_FACE_24H_ONLY || settings.clock_mode_24h then
      [Call.set_indicator WATCH_INDICATOR_24H] else [])
  ++ [if st.signal_enabled then Call.set_indicator WATCH_INDICATOR_BELL
      else Call.clear_indicator WATCH_INDICATOR_BELL]
  ++ [if settings.alarm_enabled then Call.set_indicator WATCH_INDICATOR_SIGNAL
      else Call.clear_indicator WATCH_INDICATOR_SIGNAL]
  ++ [Call.set_colon]

/-- The weekday abbreviation has two characters (what the 10-character display string needs). -/
def weekday_two_chars (P : Platform) : Prop :=
  ∀ d, (P.watch_utility_get_weekday d).length = 2

/-- The weekday abbreviation depends on the date only, not on the time of day. -/
def weekday_by_date (P : Platform) : Prop :=
  ∀ d d', d.year = d'.year → d.month = d'.month → d.day = d'.day →
    P.watch_utility_get_weekday d = P.watch_utility_get_weekday d'

/-- The string a full reformat pushes at column 0 for `c` in full-power mode: the countdown
string in countdown mode, the clock string otherwise (the last branch of the `if` chain of
`loop_refresh`). -/
def full_reformat_string (P : Platform) (settings : movement_settings_t) (c : watch_date_time)
    (w : Watch) : List Char :=
  if decide (c.hour.val ≥ 9) && decide (c.hour.val < 17) then
    (_format_countdown_to_5pm P c settings false w).buf
  else (_format_standard_time P c settings false false w).buf

/-- The current time as absolute time with UTC offset 0. -/
def local_now (P : Platform) (dt : watch_date_time) : Nat :=
  P.watch_utility_date_time_to_unix_time dt 0 % 4294967296

/-- Today at 17:00:00 as absolute time with UTC offset 0. -/
def local_target (P : Platform) (dt : watch_date_time) : Nat :=
  P.watch_utility_convert_to_unix_time ((dt.year.val + P.WATCH_RTC_REFERENCE_YEAR) % 65536)
    dt.month.val dt.day.val 17 0 0 0 % 4294967296

/-- The conversion applies the UTC offset of the settings to both timestamps: each is the
offset-0 timestamp minus the offset, in 32-bit unsigned arithmetic. -/
def offset_applied (P : Platform) (settings : movement_settings_t) (dt : watch_date_time) :
    Prop :=
  unix_now P settings dt
      = (local_now P dt + 4294967296 - _get_tz_offset_seconds P settings) % 4294967296
  ∧ unix_target P settings dt
      = (local_target P dt + 4294967296 - _get_tz_offset_seconds P settings) % 4294967296

instance (P : Platform) (settings : movement_settings_t) (dt : watch_date_time) :
    Decidable (offset_applied P settings dt) := by
  unfold offset_applied
  infer_instance

/-- The date is representable at the offset of the settings: taking the offset (read as a signed
32-bit number, so that a large unsigned value is a negative offset) from either offset-0
timestamp stays within `0 .. 2^32 - 1`. -/
def representable (P : Platform) (settings : movement_settings_t) (dt : watch_date_time) :
    Prop :=
  0 ≤ (local_now P dt : Int) - int_of_uint32 (_get_tz_offset_seconds P settings)
  ∧ (local_now P dt : Int) - int_of_uint32 (_get_tz_offset_seconds P settings) < 4294967296
  ∧ 0 ≤ (local_target P dt : Int) - int_of_uint32 (_get_tz_offset_seconds P settings)
  ∧ (local_target P dt : Int) - int_of_uint32 (_get_tz_offset_seconds P settings) < 4294967296

instance (P : Platform) (settings : movement_settings_t) (dt : watch_date_time) :
    Decidable (representable P settings dt) := by
  unfold representable
  infer_instance

/-! ## Concrete inputs -/

/-- Days from 1970-01-01 to the given civil date and the seconds of the time of day, less the UTC
offset, in 32-bit unsigned arithmetic. -/
def sample_convert_to_unix_time (year month day hour minute second utc_offset : Nat) : Nat :=
  let year_adj := year + 4800
  let febs := year_adj - (if month ≤ 2 then 1 else 0)
  let leap_days := 1 + febs / 4 - febs / 100 + febs / 400
  let days := 365 * year_adj + leap_days
    + [0, 31, 59, 90, 120, 151, 181, 212, 243, 273, 304, 334].getD (month - 1) 0 + day - 1 - 2472692
  (days * 86400 + hour * 3600 + minute * 60 + second + 4294967296 - utc_offset % 4294967296)
    % 4294967296

def sample_weekday (dt : watch_date_time) : List Char :=
  let y := dt.year.val + 2020 - (if dt.month.val < 3 then 1 else 0)
  let t := [0, 3, 2, 5, 0, 3, 5, 1, 4, 6, 2, 4].getD (dt.month.val - 1) 0
  [['M', 'O'], ['T', 'U'], ['W', 'E'], ['T', 'H'], ['F', 'R'], ['S', 'A'], ['S', 'U']].getD
    ((y + y / 4 - y / 100 + y / 400 + t + dt.day.val + 6) % 7) []

/-- A platform with reference year 2020, two-letter weekday names and a Gregorian absolute-time
conversion; timezone 0 is UTC, every other index is UTC-8. -/
def sample_platform : Platform :=
  { CLOCK_FACE_24H_ONLY := false
    WATCH_RTC_REFERENCE_YEAR := 2020
    movement_timezone_offsets := fun i => if i = 0 then 0 else -480
    watch_utility_get_weekday := sample_weekday
    watch_utility_convert_to_unix_time := sample_convert_to_unix_time
    watch_utility_date_time_to_unix_time := fun dt tz =>
      sample_convert_to_unix_time (dt.year.val + 2020) dt.month.val dt.day.val dt.hour.val
        dt.minute.val dt.second.val tz
    movement_default_loop_handler := fun _ _ => true }

/-- The afternoon of 2025-04-03, 16:15:30. -/
def sample_afternoon : watch_date_time :=
  { second := 30, minute := 15, hour := 16, day := 3, month := 4, year := 5 }

/-- The evening of 2025-04-03, 19:40:00. -/
def sample_evening : watch_date_time :=
  { second := 0, minute := 40, hour := 19, day := 3, month := 4, year := 5 }

def sample_settings : movement_settings_t :=
  { clock_mode_24h := false, clock_24h_leading_zero := false, alarm_enabled := true, time_zone := 1 }

def sample_state : k91man_state_t :=
  { previous_date_time := 0xFFFFFFFF, last_battery_check := 3, watch_face_index := 0,
    signal_enabled := true, battery_low := false, alarm_enabled := false }

def sample_watch : Watch :=
  { rtc := sample_afternoon, vcc := 2900, signal := false, bell := false, pm := false,
    h24 := false, lap := false, colon := false, tick_animation := false, adc := false, log := [] }

/-- A state whose previous timestamp is 2025-04-03 16:15:29. -/
def sample_state_running : k91man_state_t :=
  { previous_date_time := 352781277, last_battery_check := 3, watch_face_index := 0,
    signal_enabled := true, battery_low := false, alarm_enabled := false }

/-- A state whose battery was last checked on day 2. -/
def sample_state_yesterday : k91man_state_t :=
  { previous_date_time := 0xFFFFFFFF, last_battery_check := 2, watch_face_index := 0,
    signal_enabled := true, battery_low := false, alarm_enabled := false }

/-- A state whose alarm mirror is already on, and a watch whose alarm indicator is off. -/
def sample_state_mirrored : k91man_state_t :=
  { previous_date_time := 0xFFFFFFFF, last_battery_check := 3, watch_face_index := 0,
    signal_enabled := true, battery_low := false, alarm_enabled := true }

/-- A state whose previous timestamp is 2025-04-03 16:14:59. -/
def sample_state_minute_ago : k91man_state_t :=
  { previous_date_time := watch_date_time.reg { sample_afternoon with minute := 14, second := 59 }
    last_battery_check := 3, watch_face_index := 0,
    signal_enabled := true, battery_low := false, alarm_enabled := false }

/-- A watch whose sensor reads 2100 mV. -/
def sample_watch_weak : Watch := { sample_watch with vcc := 2100 }

/-- The settings of the sample with timezone 0 (UTC). -/
def sample_settings_utc : movement_settings_t := { sample_settings with time_zone := 0 }

/-- A state with the chime off, as the bell indicator of the sample watch shows it. -/
def sample_state_quiet : k91man_state_t := { sample_state with signal_enabled := false }

/-- The sample afternoon one second later, 16:15:31. -/
def sample_afternoon_next : watch_date_time := { sample_afternoon with second := 31 }

/-- The sample afternoon in another minute of the same hour, 16:48:07. -/
def sample_afternoon_later : watch_date_time := { sample_afternoon with minute := 48, second := 7 }

/-! ## Helper lemmas -/

section helpers

/-! ### The packed register -/

theorem reg_shift6_eq_iff (c : watch_date_time) (p : Nat) (hp : p < 4294967296) :
    c.reg >>> 6 = p >>> 6 ↔ agree_to_minute c (watch_date_time.of_reg p) := by
  simp only [Nat.shiftRight_eq_div_pow, watch_date_time.reg, watch_date_time.of_reg, Fin.ext_iff,
    agree_to_minute, agree_to_hour]
  norm_num
  omega

theorem reg_shift12_eq_iff (c : watch_date_time) (p : Nat) (hp : p < 4294967296) :
    c.reg >>> 12 = p >>> 12 ↔ agree_to_hour c (watch_date_time.of_reg p) := by
  simp only [Nat.shiftRight_eq_div_pow, watch_date_time.reg, watch_date_time.of_reg, Fin.ext_iff,
    agree_to_hour]
  norm_num
  omega

/-! ### The log of the primitives -/

@[simp] theorem log_set_indicator (i : WatchIndicatorSegment) (w : Watch) :
    (watch_set_indicator i w).log = w.log ++ [Call.set_indicator i] := by
  cases i <;> rfl

@[simp] theorem log_clear_indicator (i : WatchIndicatorSegment) (w : Watch) :
    (watch_clear_indicator i w).log = w.log ++ [Call.clear_indicator i] := by
  cases i <;> rfl

@[simp] theorem log_display_string (s : List Char) (pos : Nat) (w : Watch) :
    (watch_display_string s pos w).log = w.log ++ [Call.display_string s pos] := rfl

@[simp] theorem log_display_character (c pos : Nat) (w : Watch) :
    (watch_display_character_lp_seconds c pos w).log
      = w.log ++ [Call.display_character_lp_seconds (c % 256) pos] := rfl

@[simp] theorem log_start_tick (d : Nat) (w : Watch) :
    (watch_start_tick_animation d w).log = w.log ++ [Call.start_tick_animation d] := rfl

@[simp] theorem log_enable_adc (w : Watch) :
    (watch_enable_adc w).log = w.log ++ [Call.enable_adc] := rfl

@[simp] theorem log_disable_adc (w : Watch) :
    (watch_disable_adc w).log = w.log ++ [Call.disable_adc] := rfl

@[simp] theorem log_get_vcc (w : Watch) :
    (watch_get_vcc_voltage w).2.log = w.log ++ [Call.get_vcc_voltage] := rfl

theorem new_calls_of_append (w w' : Watch) (l : List Call) (h : w'.log = w.log ++ l) :
    new_calls w w' = l := by
  simp [new_calls, h]

/-! ### The countdown arithmetic -/

theorem u32_clamped_diff (n t : Nat) (ht : t < 4294967296) :
    (if (if n < t then (t + 4294967296 - n) % 4294967296 else 0) > 0
      then ((if n < t then (t + 4294967296 - n) % 4294967296 else 0) + 4294967296 - 1) % 4294967296
      else 0) = t - n - 1 := by
  split_ifs <;> omega

theorem unix_target_lt (P : Platform) (settings : movement_settings_t) (dt : watch_date_time) :
    unix_target P settings dt < 4294967296 :=
  Nat.mod_lt _ (by decide)

theorem loop_seconds_countdown_eq (P : Platform) (dt : watch_date_time)
    (settings : movement_settings_t) (w : Watch) :
    loop_seconds_countdown P dt settings w
      = watch_display_character_lp_seconds (48 + countdown_remaining P settings dt % 60 % 10) 9
          (watch_display_character_lp_seconds
            (48 + countdown_remaining P settings dt % 60 / 10) 8 w) := by
  have h := u32_clamped_diff (unix_now P settings dt) (unix_target P settings dt)
    (unix_target_lt P settings dt)
  unfold unix_now unix_target at h
  simp only [loop_seconds_countdown, watch_utility_seconds_to_duration, h]
  rfl

theorem loop_minutes_countdown_eq (P : Platform) (dt : watch_date_time)
    (settings : movement_settings_t) :
    loop_minutes_countdown P dt settings
      = fmt_02d ((countdown_remaining P settings dt % 3600 / 60 : Nat) : Int)
        ++ fmt_02d ((countdown_remaining P settings dt % 60 : Nat) : Int) := by
  have h := u32_clamped_diff (unix_now P settings dt) (unix_target P settings dt)
    (unix_target_lt P settings dt)
  unfold unix_now unix_target at h
  simp only [loop_minutes_countdown, watch_utility_seconds_to_duration, h]
  rfl

theorem format_countdown_buf (P : Platform) (dt : watch_date_time)
    (settings : movement_settings_t) (low_energy : Bool) (w : Watch) :
    (_format_countdown_to_5pm P dt settings low_energy w).buf
      = countdown_buf (countdown_remaining P settings dt) low_energy := by
  have h := u32_clamped_diff (unix_now P settings dt) (unix_target P settings dt)
    (unix_target_lt P settings dt)
  unfold unix_now unix_target at h
  simp only [_format_countdown_to_5pm, watch_utility_seconds_to_duration, h]
  cases low_energy <;> rfl

theorem format_countdown_pos (P : Platform) (dt : watch_date_time)
    (settings : movement_settings_t) (low_energy : Bool) (w : Watch) :
    (_format_countdown_to_5pm P dt settings low_energy w).pos = 0 := by
  unfold _format_countdown_to_5pm
  cases low_energy <;> simp

theorem format_countdown_log (P : Platform) (dt : watch_date_time)
    (settings : movement_settings_t) (low_energy : Bool) (w : Watch) :
    (_format_countdown_to_5pm P dt settings low_energy w).watch.log
      = w.log ++ tick_calls low_energy w := by
  unfold _format_countdown_to_5pm tick_calls watch_tick_animation_is_running
  cases low_energy <;> cases h3 : w.tick_animation <;> simp [h3]

/-! ### The standard formatter -/

theorem format_standard_time_buf (P : Platform) (dt : watch_date_time)
    (settings : movement_settings_t) (lz low_energy : Bool) (w : Watch) :
    (_format_standard_time P dt settings lz low_energy w).buf
      = standard_buf P settings dt low_energy := by
  unfold _format_standard_time standard_buf displayed_date_time
  cases low_energy <;> cases h1 : P.CLOCK_FACE_24H_ONLY <;> cases h2 : settings.clock_mode_24h <;>
    by_cases h5 : dt.hour % 12 = 0 <;> simp [h5]

theorem format_standard_time_lz (P : Platform) (dt : watch_date_time)
    (settings : movement_settings_t) (lz low_energy : Bool) (w : Watch) :
    (_format_standard_time P dt settings lz low_energy w).set_leading_zero
      = standard_leading_zero P settings dt lz := by
  unfold _format_standard_time standard_leading_zero displayed_date_time
  cases low_energy <;> cases h1 : P.CLOCK_FACE_24H_ONLY <;> cases h2 : settings.clock_mode_24h <;>
    by_cases h5 : dt.hour % 12 = 0 <;> simp [h5]

theorem format_standard_time_pos (P : Platform) (dt : watch_date_time)
    (settings : movement_settings_t) (lz low_energy : Bool) (w : Watch) :
    (_format_standard_time P dt settings lz low_energy w).pos = 0 := by
  unfold _format_standard_time
  cases low_energy <;> simp

theorem format_standard_time_log (P : Platform) (dt : watch_date_time)
    (settings : movement_settings_t) (lz low_energy : Bool) (w : Watch) :
    (_format_standard_time P dt settings lz low_energy w).watch.log
      = w.log ++ standard_calls P settings dt low_energy w := by
  unfold _format_standard_time standard_calls tick_calls watch_tick_animation_is_running
  cases low_energy <;> cases h1 : P.CLOCK_FACE_24H_ONLY <;> cases h2 : settings.clock_mode_24h <;>
    cases h3 : w.tick_animation <;> by_cases h4 : dt.hour < 12 <;>
    simp [h4, watch_set_indicator, watch_clear_indicator, watch_start_tick_animation, h3]

/-! ### The refresh, path by path -/

theorem loop_refresh_seconds (P : Platform) (event : movement_event_t)
    (settings : movement_settings_t) (st : k91man_state_t) (w : Watch)
    (h : refresh_path w.rtc st.previous_date_time event.event_type = RefreshPath.seconds) :
    loop_refresh P event settings st w
      = ((loop_battery_check w.rtc { st with previous_date_time := w.rtc.reg } w).1,
          if countdown_mode w.rtc then
            watch_display_character_lp_seconds (48 + countdown_remaining P settings w.rtc % 60 % 10) 9
              (watch_display_character_lp_seconds
                (48 + countdown_remaining P settings w.rtc % 60 / 10) 8
                (loop_battery_check w.rtc { st with previous_date_time := w.rtc.reg } w).2)
          else
            watch_display_character_lp_seconds (48 + w.rtc.second.val % 10) 9
              (watch_display_character_lp_seconds (48 + w.rtc.second.val / 10) 8
                (loop_battery_check w.rtc { st with previous_date_time := w.rtc.reg } w).2)) := by
  unfold refresh_path at h
  unfold loop_refresh countdown_mode
  simp only [watch_rtc_get_date_time]
  split_ifs at h with h6
  rw [if_pos h6]
  cases hm : (decide (w.rtc.hour.val ≥ 9) && decide (w.rtc.hour.val < 17)) <;>
    simp [loop_seconds_countdown_eq]

theorem loop_refresh_minutes (P : Platform) (event : movement_event_t)
    (settings : movement_settings_t) (st : k91man_state_t) (w : Watch)
    (h : refresh_path w.rtc st.previous_date_time event.event_type = RefreshPath.minutes) :
    loop_refresh P event settings st w
      = sync_alarm settings (loop_battery_check w.rtc { st with previous_date_time := w.rtc.reg } w).1
          (watch_display_string
            (if countdown_mode w.rtc then
              fmt_02d ((countdown_remaining P settings w.rtc % 3600 / 60 : Nat) : Int)
                ++ fmt_02d ((countdown_remaining P settings w.rtc % 60 : Nat) : Int)
             else fmt_02d w.rtc.minute.val ++ fmt_02d w.rtc.second.val) 6
            (loop_battery_check w.rtc { st with previous_date_time := w.rtc.reg } w).2) := by
  unfold refresh_path at h
  unfold loop_refresh countdown_mode sync_alarm
  simp only [watch_rtc_get_date_time]
  split_ifs at h with h6 h12
  rw [if_neg h6]
  simp only [if_pos h12]
  cases hm : (decide (w.rtc.hour.val ≥ 9) && decide (w.rtc.hour.val < 17)) <;>
    simp [loop_minutes_countdown_eq]

theorem loop_refresh_full (P : Platform) (event : movement_event_t)
    (settings : movement_settings_t) (st : k91man_state_t) (w : Watch)
    (h : refresh_path w.rtc st.previous_date_time event.event_type = RefreshPath.full) :
    loop_refresh P event settings st w
      = sync_alarm settings (loop_battery_check w.rtc { st with previous_date_time := w.rtc.reg } w).1
          (if countdown_mode w.rtc then
            watch_display_string
              (countdown_buf (countdown_remaining P settings w.rtc)
                (decide (event.event_type = EVENT_LOW_ENERGY_UPDATE))) 0
              (_format_countdown_to_5pm P w.rtc settings
                (decide (event.event_type = EVENT_LOW_ENERGY_UPDATE))
                (loop_battery_check w.rtc { st with previous_date_time := w.rtc.reg } w).2).watch
           else if standard_leading_zero P settings w.rtc false then
            watch_display_string ['0'] 4 (watch_display_string
              (standard_buf P settings w.rtc (decide (event.event_type = EVENT_LOW_ENERGY_UPDATE))) 0
              (_format_standard_time P w.rtc settings false
                (decide (event.event_type = EVENT_LOW_ENERGY_UPDATE))
                (loop_battery_check w.rtc { st with previous_date_time := w.rtc.reg } w).2).watch)
           else
            watch_display_string
              (standard_buf P settings w.rtc (decide (event.event_type = EVENT_LOW_ENERGY_UPDATE))) 0
              (_format_standard_time P w.rtc settings false
                (decide (event.event_type = EVENT_LOW_ENERGY_UPDATE))
                (loop_battery_check w.rtc { st with previous_date_time := w.rtc.reg } w).2).watch) := by
  unfold refresh_path at h
  unfold loop_refresh countdown_mode sync_alarm
  simp only [watch_rtc_get_date_time]
  split_ifs at h with h6 h12
  rw [if_neg h6]
  simp only [if_neg h12]
  cases hm : (decide (w.rtc.hour.val ≥ 9) && decide (w.rtc.hour.val < 17)) <;>
    cases hz : standard_leading_zero P settings w.rtc false <;>
    simp [format_standard_time_buf, format_standard_time_pos, format_standard_time_lz,
      format_countdown_buf, format_countdown_pos, hz]

/-! ### The battery check and the alarm resynchronisation -/

theorem battery_check_log (st : k91man_state_t) (w : Watch) (p : Nat) :
    (loop_battery_check w.rtc { st with previous_date_time := p } w).2.log
      = w.log ++ battery_calls st w := by
  unfold loop_battery_check battery_calls battery_low_after
  by_cases hb : w.rtc.day.val ≠ st.last_battery_check <;>
    by_cases hv : w.vcc % 65536 < 2200 <;> cases hl : st.battery_low <;>
    simp [hb, hv, hl, watch_get_vcc_voltage, watch_enable_adc, watch_disable_adc]

theorem battery_check_tick (dt : watch_date_time) (st : k91man_state_t) (w : Watch) :
    (loop_battery_check dt st w).2.tick_animation = w.tick_animation := by
  unfold loop_battery_check
  by_cases hb : dt.day.val ≠ st.last_battery_check <;>
    by_cases hv : w.vcc % 65536 < 2200 <;> cases hl : st.battery_low <;>
    simp [hb, hv, hl, watch_get_vcc_voltage, watch_enable_adc, watch_disable_adc,
      watch_set_indicator]

theorem battery_check_signal (dt : watch_date_time) (st : k91man_state_t) (w : Watch) :
    (loop_battery_check dt st w).2.signal = w.signal := by
  unfold loop_battery_check
  by_cases hb : dt.day.val ≠ st.last_battery_check <;>
    by_cases hv : w.vcc % 65536 < 2200 <;> cases hl : st.battery_low <;>
    simp [hb, hv, hl, watch_get_vcc_voltage, watch_enable_adc, watch_disable_adc,
      watch_set_indicator]

theorem battery_check_state (dt : watch_date_time) (st : k91man_state_t) (w : Watch) :
    (loop_battery_check dt st w).1
      = if dt.day.val ≠ st.last_battery_check then
          { st with last_battery_check := dt.day.val, battery_low := decide (w.vcc % 65536 < 2200) }
        else st := by
  unfold loop_battery_check
  by_cases hb : dt.day.val ≠ st.last_battery_check <;>
    simp [hb, watch_get_vcc_voltage, watch_enable_adc]

theorem sync_alarm_log (settings : movement_settings_t) (st : k91man_state_t) (w : Watch) :
    (sync_alarm settings st w).2.log = w.log ++ alarm_calls settings st := by
  unfold sync_alarm alarm_calls _update_alarm_indicator
  cases h1 : st.alarm_enabled <;> cases h2 : settings.alarm_enabled <;> simp

theorem sync_alarm_state (settings : movement_settings_t) (st : k91man_state_t) (w : Watch) :
    (sync_alarm settings st w).1 = { st with alarm_enabled := settings.alarm_enabled } := by
  unfold sync_alarm _update_alarm_indicator
  cases h1 : st.alarm_enabled <;> cases h2 : settings.alarm_enabled <;> simp <;>
    (cases st; simp_all)

theorem sync_alarm_signal (settings : movement_settings_t) (st : k91man_state_t) (w : Watch) :
    (sync_alarm settings st w).2.signal
      = if st.alarm_enabled ≠ settings.alarm_enabled then settings.alarm_enabled else w.signal := by
  unfold sync_alarm _update_alarm_indicator
  cases h1 : st.alarm_enabled <;> cases h2 : settings.alarm_enabled <;>
    simp [watch_set_indicator, watch_clear_indicator]

/-! ### The calls of a refresh -/

theorem display_writes_append (a b : List Call) :
    display_writes (a ++ b) = display_writes a ++ display_writes b := by
  simp [display_writes]

theorem display_writes_battery (st : k91man_state_t) (w : Watch) :
    display_writes (battery_calls st w) = [] := by
  unfold battery_calls display_writes
  split_ifs <;> simp [is_display_write]

theorem display_writes_alarm (settings : movement_settings_t) (st : k91man_state_t) :
    display_writes (alarm_calls settings st) = [] := by
  unfold alarm_calls display_writes
  split_ifs <;> simp [is_display_write]

theorem display_writes_tick (low : Bool) (w : Watch) :
    display_writes (tick_calls low w) = [] := by
  unfold tick_calls display_writes
  split_ifs <;> simp [is_display_write]

theorem display_writes_standard (P : Platform) (settings : movement_settings_t)
    (dt : watch_date_time) (low : Bool) (w : Watch) :
    display_writes (standard_calls P settings dt low w) = [] := by
  unfold standard_calls
  rw [display_writes_append, display_writes_tick]
  unfold display_writes
  split_ifs <;> simp [is_display_write]

theorem digit_byte (n : Nat) : (48 + n % 60 / 10) % 256 = 48 + n % 60 / 10
    ∧ (48 + n % 60 % 10) % 256 = 48 + n % 60 % 10 := by
  omega

theorem second_byte (s : Fin 64) : (48 + s.val / 10) % 256 = 48 + s.val / 10
    ∧ (48 + s.val % 10) % 256 = 48 + s.val % 10 := by
  omega

theorem alarm_calls_battery (settings : movement_settings_t) (dt : watch_date_time)
    (st : k91man_state_t) (w : Watch) (p : Nat) :
    alarm_calls settings (loop_battery_check dt { st with previous_date_time := p } w).1
      = alarm_calls settings st := by
  rw [battery_check_state]
  unfold alarm_calls
  split_ifs <;> rfl

/-- The log of a refresh: the battery calls, then the calls of the path taken. -/
theorem loop_refresh_log (P : Platform) (event : movement_event_t)
    (settings : movement_settings_t) (st : k91man_state_t) (w : Watch) :
    (loop_refresh P event settings st w).2.log
      = w.log ++ (battery_calls st w ++ refresh_calls P event settings st w) := by
  have hb := battery_check_log st w w.rtc.reg
  have ht := battery_check_tick w.rtc { st with previous_date_time := w.rtc.reg } w
  have ha := alarm_calls_battery settings w.rtc st w w.rtc.reg
  unfold refresh_calls
  cases hp : refresh_path w.rtc st.previous_date_time event.event_type
  · rw [loop_refresh_seconds P event settings st w hp]
    dsimp only
    split_ifs <;> simp [hb, digit_byte, second_byte]
  · rw [loop_refresh_minutes P event settings st w hp, sync_alarm_log, ha]
    dsimp only
    split_ifs <;> simp [hb]
  · rw [loop_refresh_full P event settings st w hp, sync_alarm_log, ha]
    dsimp only
    split_ifs <;>
      simp [hb, ht, format_countdown_log, format_standard_time_log, tick_calls, standard_calls]

theorem display_writes_refresh_calls (P : Platform) (event : movement_event_t)
    (settings : movement_settings_t) (st : k91man_state_t) (w : Watch) :
    display_writes (refresh_calls P event settings st w)
      = refresh_display_writes P event settings st w := by
  unfold refresh_calls refresh_display_writes
  cases hp : refresh_path w.rtc st.previous_date_time event.event_type
  · dsimp only
    split_ifs <;> simp [display_writes, is_display_write]
  · dsimp only
    simp only [display_writes_append, display_writes_alarm]
    split_ifs <;> simp [display_writes, is_display_write]
  · dsimp only
    simp only [display_writes_append, display_writes_alarm]
    split_ifs <;>
      simp [display_writes_append, display_writes_tick, display_writes_standard] <;>
      simp [display_writes, is_display_write]

theorem loop_refresh_display (P : Platform) (event : movement_event_t)
    (settings : movement_settings_t) (st : k91man_state_t) (w : Watch) :
    display_writes (new_calls w (loop_refresh P event settings st w).2)
      = refresh_display_writes P event settings st w := by
  rw [new_calls_of_append w _ _ (loop_refresh_log P event settings st w), display_writes_append,
    display_writes_battery, display_writes_refresh_calls]
  rfl

/-! ### The three updates as they show on the display -/

theorem fmt_02d_two_digits (n : Nat) (h : n < 100) : fmt_02d (n : Int) = two_digits n := by
  interval_cases n <;> rfl

theorem loop_of_refresh (P : Platform) (event : movement_event_t)
    (settings : movement_settings_t) (st : k91man_state_t) (w : Watch)
    (hev : is_refresh_event event.event_type = true) :
    k91man_face_loop P event settings st w = (true, loop_refresh P event settings st w) := by
  unfold k91man_face_loop
  cases h : event.event_type <;> simp_all [is_refresh_event]

theorem minutes_field_length (P : Platform) (settings : movement_settings_t)
    (c : watch_date_time) :
    (fmt_02d ((countdown_remaining P settings c % 3600 / 60 : Nat) : Int)
      ++ fmt_02d ((countdown_remaining P settings c % 60 : Nat) : Int)).length = 4
    ∧ (fmt_02d c.minute.val ++ fmt_02d c.second.val).length = 4 := by
  have h1 : countdown_remaining P settings c % 3600 / 60 < 100 := by omega
  have h2 : countdown_remaining P settings c % 60 < 100 := by omega
  have h3 : c.minute.val < 100 := by omega
  have h4 : c.second.val < 100 := by omega
  rw [fmt_02d_two_digits _ h1, fmt_02d_two_digits _ h2, fmt_02d_two_digits _ h3,
    fmt_02d_two_digits _ h4]
  exact ⟨rfl, rfl⟩

theorem seconds_update_iff (P : Platform) (event : movement_event_t)
    (settings : movement_settings_t) (st : k91man_state_t) (w : Watch) :
    (∃ a b, refresh_display_writes P event settings st w
      = [Call.display_character_lp_seconds a 8, Call.display_character_lp_seconds b 9])
    ↔ refresh_path w.rtc st.previous_date_time event.event_type = RefreshPath.seconds := by
  unfold refresh_display_writes
  cases hp : refresh_path w.rtc st.previous_date_time event.event_type <;> dsimp only <;>
    split_ifs <;> simp

theorem minutes_update_iff (P : Platform) (event : movement_event_t)
    (settings : movement_settings_t) (st : k91man_state_t) (w : Watch) :
    (∃ s, s.length = 4 ∧ refresh_display_writes P event settings st w = [Call.display_string s 6])
    ↔ refresh_path w.rtc st.previous_date_time event.event_type = RefreshPath.minutes := by
  have hl := minutes_field_length P settings w.rtc
  unfold refresh_display_writes
  cases hp : refresh_path w.rtc st.previous_date_time event.event_type <;> dsimp only
  · split_ifs <;> simp
  · split_ifs
    · exact ⟨fun _ => rfl, fun _ => ⟨_, hl.1, rfl⟩⟩
    · exact ⟨fun _ => rfl, fun _ => ⟨_, hl.2, rfl⟩⟩
  · split_ifs <;> simp

theorem full_update_iff (P : Platform) (event : movement_event_t)
    (settings : movement_settings_t) (st : k91man_state_t) (w : Watch) :
    (∃ s, refresh_display_writes P event settings st w = [Call.display_string s 0]
      ∨ refresh_display_writes P event settings st w
        = [Call.display_string s 0, Call.display_string ['0'] 4])
    ↔ refresh_path w.rtc st.previous_date_time event.event_type = RefreshPath.full := by
  unfold refresh_display_writes
  cases hp : refresh_path w.rtc st.previous_date_time event.event_type <;> dsimp only <;>
    split_ifs <;> simp

theorem refresh_path_seconds_iff (c : watch_date_time) (p : Nat) (t : movement_event_type_t)
    (hp : p < 4294967296) :
    refresh_path c p t = RefreshPath.seconds
      ↔ agree_to_minute c (watch_date_time.of_reg p) ∧ t ≠ EVENT_LOW_ENERGY_UPDATE := by
  rw [← reg_shift6_eq_iff c p hp]
  unfold refresh_path
  split_ifs <;> simp_all

theorem refresh_path_minutes_iff (c : watch_date_time) (p : Nat) (t : movement_event_type_t)
    (hp : p < 4294967296) :
    refresh_path c p t = RefreshPath.minutes
      ↔ agree_to_hour c (watch_date_time.of_reg p) ∧ c.minute ≠ (watch_date_time.of_reg p).minute
        ∧ t ≠ EVENT_LOW_ENERGY_UPDATE := by
  have h6 := reg_shift6_eq_iff c p hp
  have h12 := reg_shift12_eq_iff c p hp
  unfold agree_to_minute at h6
  unfold refresh_path
  split_ifs <;> simp_all

theorem refresh_path_full_iff (c : watch_date_time) (p : Nat) (t : movement_event_type_t)
    (hp : p < 4294967296) :
    refresh_path c p t = RefreshPath.full
      ↔ ¬ agree_to_hour c (watch_date_time.of_reg p) ∨ t = EVENT_LOW_ENERGY_UPDATE := by
  have h6 := reg_shift6_eq_iff c p hp
  have h12 := reg_shift12_eq_iff c p hp
  unfold agree_to_minute at h6
  unfold refresh_path
  split_ifs <;> simp_all
  all_goals tauto

theorem seconds_only_update_iff_exists (l : List Call) :
    seconds_only_update l = true ↔ ∃ a b, display_writes l
      = [Call.display_character_lp_seconds a 8, Call.display_character_lp_seconds b 9] := by
  unfold seconds_only_update
  constructor
  · intro h
    split at h
    · rename_i a p b q heq
      simp only [Bool.and_eq_true, decide_eq_true_eq] at h
      obtain ⟨rfl, rfl⟩ := h
      exact ⟨a, b, heq⟩
    · exact absurd h (by decide)
  · rintro ⟨a, b, h⟩
    rw [h]
    rfl

theorem minutes_update_iff_exists (l : List Call) :
    minutes_update l = true
      ↔ ∃ s, s.length = 4 ∧ display_writes l = [Call.display_string s 6] := by
  unfold minutes_update
  constructor
  · intro h
    split at h
    · rename_i s p heq
      simp only [Bool.and_eq_true, decide_eq_true_eq] at h
      obtain ⟨hs, rfl⟩ := h
      exact ⟨s, hs, heq⟩
    · exact absurd h (by decide)
  · rintro ⟨s, hs, h⟩
    rw [h]
    simp [hs]

theorem full_update_iff_exists (l : List Call) :
    full_update l = true
      ↔ ∃ s, display_writes l = [Call.display_string s 0]
          ∨ display_writes l = [Call.display_string s 0, Call.display_string ['0'] 4] := by
  unfold full_update
  constructor
  · intro h
    split at h
    · rename_i s p heq
      simp only [decide_eq_true_eq] at h
      subst h
      exact ⟨s, Or.inl heq⟩
    · rename_i s p z q heq
      simp only [Bool.and_eq_true, decide_eq_true_eq] at h
      obtain ⟨⟨rfl, rfl⟩, rfl⟩ := h
      exact ⟨s, Or.inr heq⟩
    · exact absurd h (by decide)
  · rintro ⟨s, h | h⟩ <;> rw [h] <;> rfl

theorem loop_display (P : Platform) (event : movement_event_t)
    (settings : movement_settings_t) (st : k91man_state_t) (w : Watch)
    (hev : is_refresh_event event.event_type = true) :
    display_writes (new_calls w (k91man_face_loop P event settings st w).2.2)
      = refresh_display_writes P event settings st w := by
  rw [loop_of_refresh P event settings st w hev]
  exact loop_refresh_display P event settings st w

/-! ### The countdown before and after 17:00 -/

theorem int_of_uint32_small (x : Nat) (h : x < 2147483648) : int_of_uint32 x = (x : Int) := by
  unfold int_of_uint32
  have h1 : x % 4294967296 = x := Nat.mod_eq_of_lt (by omega)
  rw [h1, if_pos h]

theorem countdown_buf_same_day (r : Nat) (hr : r < 86400) (low : Bool) :
    countdown_buf r low = [' ', ' ', ' ', ' '] ++ two_digits (r / 3600)
      ++ two_digits (r % 3600 / 60) ++ (if low then [' ', ' '] else two_digits (r % 60)) := by
  unfold countdown_buf
  have h1 : (r % 86400 / 3600 + r / 86400 * 24) % 4294967296 = r / 3600 := by omega
  have h2 : r / 3600 < 100 := by omega
  have h3 : r % 3600 / 60 < 100 := by omega
  have h4 : r % 60 < 100 := by omega
  rw [h1, int_of_uint32_small _ (by omega), fmt_02d_two_digits _ h2, fmt_02d_two_digits _ h3,
    fmt_02d_two_digits _ h4]

theorem remaining_before_5pm (P : Platform) (settings : movement_settings_t)
    (dt : watch_date_time) (hconv : time_of_day_difference P settings dt)
    (hh : dt.hour.val < 17) (hm : dt.minute.val < 60) (hs : dt.second.val < 60) :
    countdown_remaining P settings dt
      = 3600 * (16 - dt.hour.val) + 60 * (59 - dt.minute.val) + (59 - dt.second.val) := by
  unfold time_of_day_difference time_of_day at hconv
  unfold countdown_remaining
  omega

theorem remaining_from_5pm (P : Platform) (settings : movement_settings_t)
    (dt : watch_date_time) (hconv : time_of_day_difference P settings dt)
    (hh : 17 ≤ dt.hour.val) :
    countdown_remaining P settings dt = 0 := by
  unfold time_of_day_difference time_of_day at hconv
  unfold countdown_remaining
  omega

theorem countdown_mode_iff (dt : watch_date_time) :
    countdown_mode dt = true ↔ (9 ≤ dt.hour.val ∧ dt.hour.val < 17) := by
  simp [countdown_mode]

theorem activate_previous (P : Platform) (settings : movement_settings_t) (st : k91man_state_t)
    (w : Watch) : (k91man_face_activate P settings st w).1.previous_date_time = 0xFFFFFFFF := rfl

theorem sentinel_path_full (c : watch_date_time) (t : movement_event_type_t)
    (hc : valid_date_time c) : refresh_path c 0xFFFFFFFF t = RefreshPath.full := by
  rw [refresh_path_full_iff c _ t (by decide)]
  left
  intro h
  have hm : c.month = (watch_date_time.of_reg 0xFFFFFFFF).month := h.2.1
  have : c.month.val = 15 := by rw [hm]; rfl
  unfold valid_date_time at hc
  omega

/-! ### What a refresh leaves of the state and the watch -/

theorem format_standard_time_frame (P : Platform) (dt : watch_date_time)
    (settings : movement_settings_t) (lz low_energy : Bool) (w : Watch) :
    (_format_standard_time P dt settings lz low_energy w).watch.signal = w.signal
    ∧ (_format_standard_time P dt settings lz low_energy w).watch.adc = w.adc
    ∧ (_format_standard_time P dt settings lz low_energy w).watch.lap = w.lap := by
  unfold _format_standard_time watch_tick_animation_is_running
  cases low_energy <;> cases h1 : P.CLOCK_FACE_24H_ONLY <;> cases h2 : settings.clock_mode_24h <;>
    cases h3 : w.tick_animation <;> by_cases h4 : dt.hour < 12 <;>
    simp [h4, watch_set_indicator, watch_clear_indicator, watch_start_tick_animation, h3]

theorem format_countdown_frame (P : Platform) (dt : watch_date_time)
    (settings : movement_settings_t) (low_energy : Bool) (w : Watch) :
    (_format_countdown_to_5pm P dt settings low_energy w).watch.signal = w.signal
    ∧ (_format_countdown_to_5pm P dt settings low_energy w).watch.adc = w.adc
    ∧ (_format_countdown_to_5pm P dt settings low_energy w).watch.lap = w.lap := by
  unfold _format_countdown_to_5pm watch_tick_animation_is_running
  cases low_energy <;> cases h3 : w.tick_animation <;> simp [h3, watch_start_tick_animation]

theorem sync_alarm_frame (settings : movement_settings_t) (st : k91man_state_t) (w : Watch) :
    (sync_alarm settings st w).2.adc = w.adc ∧ (sync_alarm settings st w).2.lap = w.lap := by
  unfold sync_alarm _update_alarm_indicator
  cases h1 : st.alarm_enabled <;> cases h2 : settings.alarm_enabled <;>
    simp [watch_set_indicator, watch_clear_indicator]

theorem battery_check_adc (dt : watch_date_time) (st : k91man_state_t) (w : Watch) :
    (loop_battery_check dt st w).2.adc
      = if dt.day.val ≠ st.last_battery_check then false else w.adc := by
  unfold loop_battery_check
  by_cases hb : dt.day.val ≠ st.last_battery_check <;>
    by_cases hv : w.vcc % 65536 < 2200 <;> cases hl : st.battery_low <;>
    simp [hb, hv, hl, watch_get_vcc_voltage, watch_enable_adc, watch_disable_adc,
      watch_set_indicator]

theorem battery_check_lap (dt : watch_date_time) (st : k91man_state_t) (w : Watch) :
    (loop_battery_check dt st w).2.lap
      = ((loop_battery_check dt st w).1.battery_low || w.lap) := by
  unfold loop_battery_check
  by_cases hb : dt.day.val ≠ st.last_battery_check <;>
    by_cases hv : w.vcc % 65536 < 2200 <;> cases hl : st.battery_low <;>
    simp [hb, hv, hl, watch_get_vcc_voltage, watch_enable_adc, watch_disable_adc,
      watch_set_indicator]

/-- The state a refresh leaves: the battery fields from the battery check, the timestamp from
the RTC, and the alarm mirror resynchronised except on the seconds-only path. -/
theorem loop_refresh_state (P : Platform) (event : movement_event_t)
    (settings : movement_settings_t) (st : k91man_state_t) (w : Watch) :
    (loop_refresh P event settings st w).1
      = { st with
          previous_date_time := w.rtc.reg
          last_battery_check := w.rtc.day.val
          battery_low := battery_low_after st w
          alarm_enabled :=
            if refresh_path w.rtc st.previous_date_time event.event_type = RefreshPath.seconds
            then st.alarm_enabled else settings.alarm_enabled } := by
  have hs := battery_check_state w.rtc { st with previous_date_time := w.rtc.reg } w
  cases hp : refresh_path w.rtc st.previous_date_time event.event_type
  · rw [loop_refresh_seconds P event settings st w hp]
    dsimp only
    rw [hs]
    unfold battery_low_after
    split_ifs <;> simp_all
  · rw [loop_refresh_minutes P event settings st w hp, sync_alarm_state, hs]
    unfold battery_low_after
    split_ifs <;> simp_all
  · rw [loop_refresh_full P event settings st w hp, sync_alarm_state, hs]
    unfold battery_low_after
    split_ifs <;> simp_all

theorem loop_refresh_adc (P : Platform) (event : movement_event_t)
    (settings : movement_settings_t) (st : k91man_state_t) (w : Watch) :
    (loop_refresh P event settings st w).2.adc
      = if w.rtc.day.val ≠ st.last_battery_check then false else w.adc := by
  have hb := battery_check_adc w.rtc { st with previous_date_time := w.rtc.reg } w
  cases hp : refresh_path w.rtc st.previous_date_time event.event_type
  · rw [loop_refresh_seconds P event settings st w hp]
    dsimp only
    split_ifs <;> simp_all [watch_display_character_lp_seconds]
  · rw [loop_refresh_minutes P event settings st w hp, (sync_alarm_frame _ _ _).1]
    simp_all [watch_display_string]
  · rw [loop_refresh_full P event settings st w hp, (sync_alarm_frame _ _ _).1]
    split_ifs <;>
      simp_all [watch_display_string, (format_countdown_frame _ _ _ _ _).2.1,
        (format_standard_time_frame _ _ _ _ _ _).2.1]

/-! ### Voltage samples -/

theorem adc_calls_append (a b : List Call) : adc_calls (a ++ b) = adc_calls a ++ adc_calls b := by
  simp [adc_calls]

theorem samples_append (a b : List Call) : samples (a ++ b) = samples a + samples b := by
  simp [samples]

theorem adc_calls_alarm (settings : movement_settings_t) (st : k91man_state_t) :
    adc_calls (alarm_calls settings st) = [] ∧ samples (alarm_calls settings st) = 0 := by
  unfold alarm_calls adc_calls samples
  split_ifs <;> simp

theorem adc_calls_tick (low : Bool) (w : Watch) :
    adc_calls (tick_calls low w) = [] ∧ samples (tick_calls low w) = 0 := by
  unfold tick_calls adc_calls samples
  split_ifs <;> simp

theorem adc_calls_standard (P : Platform) (settings : movement_settings_t)
    (dt : watch_date_time) (low : Bool) (w : Watch) :
    adc_calls (standard_calls P settings dt low w) = []
    ∧ samples (standard_calls P settings dt low w) = 0 := by
  unfold standard_calls
  rw [adc_calls_append, samples_append, (adc_calls_tick low w).1, (adc_calls_tick low w).2]
  unfold adc_calls samples
  split_ifs <;> simp

theorem adc_calls_refresh (P : Platform) (event : movement_event_t)
    (settings : movement_settings_t) (st : k91man_state_t) (w : Watch) :
    adc_calls (refresh_calls P event settings st w) = []
    ∧ samples (refresh_calls P event settings st w) = 0 := by
  unfold refresh_calls
  cases hp : refresh_path w.rtc st.previous_date_time event.event_type <;> dsimp only
  · split_ifs <;> simp [adc_calls, samples]
  · rw [adc_calls_append, samples_append, (adc_calls_alarm _ _).1, (adc_calls_alarm _ _).2]
    split_ifs <;> simp [adc_calls, samples]
  · rw [adc_calls_append, samples_append, (adc_calls_alarm _ _).1, (adc_calls_alarm _ _).2]
    split_ifs <;>
      simp [adc_calls_append, samples_append, adc_calls_tick, adc_calls_standard] <;>
      simp [adc_calls, samples]

theorem adc_calls_battery (st : k91man_state_t) (w : Watch) :
    adc_calls (battery_calls st w)
      = (if w.rtc.day.val ≠ st.last_battery_check then
          [Call.enable_adc, Call.get_vcc_voltage, Call.disable_adc] else [])
    ∧ samples (battery_calls st w) = (if w.rtc.day.val ≠ st.last_battery_check then 1 else 0) := by
  unfold battery_calls adc_calls samples
  split_ifs <;> simp

/-- The voltage-sensor calls of one refresh. -/
theorem loop_adc_calls (P : Platform) (event : movement_event_t)
    (settings : movement_settings_t) (st : k91man_state_t) (w : Watch)
    (hev : is_refresh_event event.event_type = true) :
    adc_calls (new_calls w (k91man_face_loop P event settings st w).2.2)
      = (if w.rtc.day.val ≠ st.last_battery_check then
          [Call.enable_adc, Call.get_vcc_voltage, Call.disable_adc] else [])
    ∧ samples (new_calls w (k91man_face_loop P event settings st w).2.2)
      = (if w.rtc.day.val ≠ st.last_battery_check then 1 else 0) := by
  rw [loop_of_refresh P event settings st w hev,
    new_calls_of_append w _ _ (loop_refresh_log P event settings st w), adc_calls_append,
    samples_append, (adc_calls_refresh _ _ _ _ _).1, (adc_calls_refresh _ _ _ _ _).2,
    (adc_calls_battery _ _).1, (adc_calls_battery _ _).2]
  simp

theorem loop_step_samples (P : Platform) (event : movement_event_t)
    (settings : movement_settings_t) (st : k91man_state_t) (w : Watch)
    (hev : is_refresh_event event.event_type = true) :
    ∃ l, (k91man_face_loop P event settings st w).2.2.log = w.log ++ l
      ∧ samples l = (if w.rtc.day.val ≠ st.last_battery_check then 1 else 0)
      ∧ (k91man_face_loop P event settings st w).2.1.last_battery_check = w.rtc.day.val
      ∧ (k91man_face_loop P event settings st w).2.1.battery_low = battery_low_after st w := by
  rw [loop_of_refresh P event settings st w hev]
  refine ⟨_, loop_refresh_log P event settings st w, ?_, ?_, ?_⟩
  · rw [samples_append, (adc_calls_refresh _ _ _ _ _).2, (adc_calls_battery _ _).2]
    rfl
  · simp only [loop_refresh_state]
  · simp only [loop_refresh_state]

/-- The log of a run extends the log it started from; over refresh events that all read the same
day, at most one voltage sample is added, and none when that day was already checked. -/
theorem run_events_samples (P : Platform) (d : Nat) :
    ∀ (steps : List RefreshStep) (st : k91man_state_t) (w : Watch),
      (∀ e ∈ steps, is_refresh_event e.event.event_type = true ∧ e.rtc.day.val = d) →
      ∃ l, (run_events P steps st w).2.log = w.log ++ l
        ∧ samples l ≤ (if st.last_battery_check = d then 0 else 1) := by
  intro steps
  induction steps with
  | nil =>
    intro st w _
    exact ⟨[], by simp [run_events], by simp [samples]⟩
  | cons e es ih =>
    intro st w h
    have he := h e (List.mem_cons_self _ _)
    have hes : ∀ x ∈ es, is_refresh_event x.event.event_type = true ∧ x.rtc.day.val = d :=
      fun x hx => h x (List.mem_cons_of_mem _ hx)
    obtain ⟨l1, hl1, hs1, hlast, _⟩ :=
      loop_step_samples P e.event e.settings st (set_readings w e) he.1
    obtain ⟨l2, hl2, hs2⟩ := ih
      (k91man_face_loop P e.event e.settings st (set_readings w e)).2.1
      (k91man_face_loop P e.event e.settings st (set_readings w e)).2.2 hes
    have hday : (set_readings w e).rtc.day.val = d := he.2
    have hlog0 : (set_readings w e).log = w.log := rfl
    rw [hlast, hday, if_pos rfl] at hs2
    rw [hday] at hs1
    refine ⟨l1 ++ l2, ?_, ?_⟩
    · rw [run_events, hl2, hl1, hlog0, List.append_assoc]
    · rw [samples_append, hs1]
      split_ifs <;> omega

/-- A `battery_low` that is true stays true along a run of refresh events until a step whose
day differs from the last checked day samples a voltage that is not below 2200. -/
theorem run_events_sticky (P : Platform) :
    ∀ (steps : List RefreshStep) (st : k91man_state_t) (w : Watch),
      (∀ e ∈ steps, is_refresh_event e.event.event_type = true) →
      st.battery_low = true → (run_events P steps st w).1.battery_low = false →
      ∃ pre e post, steps = pre ++ e :: post
        ∧ (run_events P pre st w).1.battery_low = true
        ∧ e.rtc.day.val ≠ (run_events P pre st w).1.last_battery_check
        ∧ ¬ (e.vcc % 65536 < 2200) := by
  intro steps
  induction steps with
  | nil =>
    intro st w _ h1 h2
    rw [run_events, h1] at h2
    exact absurd h2 (by decide)
  | cons e es ih =>
    intro st w h h1 h2
    have he := h e (List.mem_cons_self _ _)
    have hes : ∀ x ∈ es, is_refresh_event x.event.event_type = true :=
      fun x hx => h x (List.mem_cons_of_mem _ hx)
    obtain ⟨_, _, _, _, hlow⟩ := loop_step_samples P e.event e.settings st (set_readings w e) he
    rw [run_events] at h2
    cases hb : battery_low_after st (set_readings w e)
    · refine ⟨[], e, es, rfl, h1, ?_⟩
      unfold battery_low_after at hb
      have hr : (set_readings w e).rtc = e.rtc := rfl
      have hv : (set_readings w e).vcc = e.vcc := rfl
      rw [hr, hv] at hb
      rw [run_events]
      split_ifs at hb with hd
      · exact ⟨hd, by simpa using hb⟩
      · rw [h1] at hb
        exact absurd hb (by decide)
    · rw [hb] at hlow
      obtain ⟨pre, e', post, hsplit, hpre, hday, hv⟩ := ih _ _ hes hlow h2
      exact ⟨e :: pre, e', post, by rw [hsplit]; rfl, by rw [run_events]; exact hpre,
        by rw [run_events]; exact hday, hv⟩

/-! ### Twelve-hour conversion -/

theorem displayed_12h (P : Platform) (settings : movement_settings_t) (dt : watch_date_time)
    (h24only : P.CLOCK_FACE_24H_ONLY = false) (hmode : settings.clock_mode_24h = false) :
    displayed_date_time P settings dt
      = { dt with hour := Fin.ofNat ((dt.hour.val + 11) % 12 + 1) } := by
  unfold displayed_date_time
  simp only [h24only, hmode, Bool.not_false, Bool.and_self, if_true]
  have hval : (dt.hour % 12).val = dt.hour.val % 12 := rfl
  have h12 : ((12 : Fin 32)).val = 12 := rfl
  have hof : (Fin.ofNat ((dt.hour.val + 11) % 12 + 1) : Fin 32).val
      = ((dt.hour.val + 11) % 12 + 1) % 32 := rfl
  by_cases h0 : dt.hour % 12 = 0
  · rw [if_pos h0]
    have : (dt.hour % 12).val = 0 := by rw [h0]; rfl
    congr 1
    apply Fin.ext
    omega
  · rw [if_neg h0]
    have : (dt.hour % 12).val ≠ 0 := fun h => h0 (Fin.ext h)
    congr 1
    apply Fin.ext
    omega

theorem format_standard_time_pm (P : Platform) (dt : watch_date_time)
    (settings : movement_settings_t) (lz low_energy : Bool) (w : Watch)
    (h24only : P.CLOCK_FACE_24H_ONLY = false) (hmode : settings.clock_mode_24h = false) :
    (_format_standard_time P dt settings lz low_energy w).watch.pm = decide (12 ≤ dt.hour.val) := by
  unfold _format_standard_time watch_tick_animation_is_running
  have hlt : dt.hour < 12 ↔ dt.hour.val < 12 := Iff.rfl
  cases low_energy <;> cases h3 : w.tick_animation <;> by_cases h4 : dt.hour.val < 12 <;>
    simp [h24only, hmode, hlt, h4, watch_set_indicator, watch_clear_indicator,
      watch_start_tick_animation, h3] <;> omega

/-! ### The alarm indicator -/

theorem loop_refresh_signal (P : Platform) (event : movement_event_t)
    (settings : movement_settings_t) (st : k91man_state_t) (w : Watch) :
    (loop_refresh P event settings st w).2.signal
      = if refresh_path w.rtc st.previous_date_time event.event_type = RefreshPath.seconds
        then w.signal
        else if st.alarm_enabled ≠ settings.alarm_enabled then settings.alarm_enabled
        else w.signal := by
  have hb := battery_check_signal w.rtc { st with previous_date_time := w.rtc.reg } w
  have hs := battery_check_state w.rtc { st with previous_date_time := w.rtc.reg } w
  have ha : (loop_battery_check w.rtc { st with previous_date_time := w.rtc.reg } w).1.alarm_enabled
      = st.alarm_enabled := by
    rw [hs]; split_ifs <;> rfl
  cases hp : refresh_path w.rtc st.previous_date_time event.event_type
  · rw [loop_refresh_seconds P event settings st w hp]
    dsimp only
    split_ifs <;> simp_all [watch_display_character_lp_seconds]
  · rw [loop_refresh_minutes P event settings st w hp, sync_alarm_signal, ha]
    simp_all [watch_display_string]
  · rw [loop_refresh_full P event settings st w hp, sync_alarm_signal, ha]
    split_ifs <;>
      simp_all [watch_display_string, (format_countdown_frame _ _ _ _ _).1,
        (format_standard_time_frame _ _ _ _ _ _).1]

theorem activate_alarm (P : Platform) (settings : movement_settings_t) (st : k91man_state_t)
    (w : Watch) :
    (k91man_face_activate P settings st w).1.alarm_enabled = settings.alarm_enabled
    ∧ (k91man_face_activate P settings st w).2.signal = settings.alarm_enabled := by
  unfold k91man_face_activate _update_alarm_indicator
  cases h : settings.alarm_enabled <;> simp [watch_set_indicator, watch_clear_indicator,
    watch_set_colon]

/-! ### The length of the clock string -/

theorem fmt_2d_two_chars (n : Nat) (h : n < 100) : (fmt_2d (n : Int)).length = 2 := by
  interval_cases n <;> rfl

theorem fmt_02d_two_chars (n : Nat) (h : n < 100) : (fmt_02d (n : Int)).length = 2 := by
  rw [fmt_02d_two_digits n h]
  rfl

/-- The standard string is the weekday abbreviation followed by eight characters. -/
theorem standard_buf_length (P : Platform) (settings : movement_settings_t)
    (dt : watch_date_time) (low : Bool) :
    (standard_buf P settings dt low).length
      = (P.watch_utility_get_weekday (displayed_date_time P settings dt)).length + 8 := by
  unfold standard_buf
  have h1 := fmt_2d_two_chars (displayed_date_time P settings dt).day.val (by omega)
  have h2 := fmt_2d_two_chars (displayed_date_time P settings dt).hour.val (by omega)
  have h3 := fmt_02d_two_chars (displayed_date_time P settings dt).minute.val (by omega)
  have h4 := fmt_02d_two_chars (displayed_date_time P settings dt).second.val (by omega)
  cases low <;> simp only [List.length_append, h1, h2, h3, h4, if_true, if_false,
    Bool.false_eq_true, List.length_cons, List.length_nil]

/-! ### The leading zero -/

theorem mem_display_writes (c : Call) (l : List Call) (hc : is_display_write c = true) :
    c ∈ l ↔ c ∈ display_writes l := by
  simp [display_writes, hc]

theorem leading_zero_iff (P : Platform) (settings : movement_settings_t) (dt : watch_date_time) :
    standard_leading_zero P settings dt false = true
      ↔ (settings.clock_mode_24h = true ∧ settings.clock_24h_leading_zero = true
          ∧ dt.hour.val < 10) := by
  unfold standard_leading_zero displayed_date_time
  have hlt : dt.hour < 10 ↔ dt.hour.val < 10 := Iff.rfl
  cases h1 : settings.clock_mode_24h <;> cases h2 : settings.clock_24h_leading_zero <;>
    simp [hlt]

theorem leading_zero_write_iff (P : Platform) (event : movement_event_t)
    (settings : movement_settings_t) (st : k91man_state_t) (w : Watch) :
    Call.display_string ['0'] 4 ∈ refresh_display_writes P event settings st w
      ↔ (refresh_path w.rtc st.previous_date_time event.event_type = RefreshPath.full
          ∧ countdown_mode w.rtc = false
          ∧ standard_leading_zero P settings w.rtc false = true) := by
  unfold refresh_display_writes
  cases hp : refresh_path w.rtc st.previous_date_time event.event_type <;> dsimp only <;>
    split_ifs <;> simp_all

/-! ### The long press -/

theorem loop_long_press (P : Platform) (event : movement_event_t)
    (settings : movement_settings_t) (st : k91man_state_t) (w : Watch)
    (hev : event.event_type = EVENT_ALARM_LONG_PRESS) :
    k91man_face_loop P event settings st w
      = (true, { st with signal_enabled := !st.signal_enabled },
          if (!st.signal_enabled) = true then watch_set_indicator WATCH_INDICATOR_BELL w
          else watch_clear_indicator WATCH_INDICATOR_BELL w) := by
  unfold k91man_face_loop
  rw [hev]

/-! ### Low-power output -/

theorem blank_last_two_append (a b : List Char) (hb : b.length = 2) :
    blank_last_two (a ++ b) = a ++ [' ', ' '] := by
  unfold blank_last_two
  rw [List.length_append, hb, Nat.add_sub_cancel, List.take_left]

theorem standard_buf_low (P : Platform) (settings : movement_settings_t) (dt : watch_date_time) :
    standard_buf P settings dt true = blank_last_two (standard_buf P settings dt false) := by
  unfold standard_buf
  simp only [if_true, Bool.false_eq_true, if_false]
  rw [blank_last_two_append _ _
    (fmt_02d_two_chars (displayed_date_time P settings dt).second.val (by omega))]

theorem countdown_buf_low (r : Nat) :
    countdown_buf r true = blank_last_two (countdown_buf r false) := by
  unfold countdown_buf
  simp only [if_true, Bool.false_eq_true, if_false]
  rw [blank_last_two_append _ _ (fmt_02d_two_chars (r % 60) (by omega))]

theorem format_standard_time_tick (P : Platform) (dt : watch_date_time)
    (settings : movement_settings_t) (lz low_energy : Bool) (w : Watch) :
    (_format_standard_time P dt settings lz low_energy w).watch.tick_animation
      = (low_energy || w.tick_animation) := by
  unfold _format_standard_time watch_tick_animation_is_running
  cases low_energy <;> cases h1 : P.CLOCK_FACE_24H_ONLY <;> cases h2 : settings.clock_mode_24h <;>
    cases h3 : w.tick_animation <;> by_cases h4 : dt.hour < 12 <;>
    simp [h4, watch_set_indicator, watch_clear_indicator, watch_start_tick_animation, h3]

theorem format_countdown_tick (P : Platform) (dt : watch_date_time)
    (settings : movement_settings_t) (low_energy : Bool) (w : Watch) :
    (_format_countdown_to_5pm P dt settings low_energy w).watch.tick_animation
      = (low_energy || w.tick_animation) := by
  unfold _format_countdown_to_5pm watch_tick_animation_is_running
  cases low_energy <;> cases h3 : w.tick_animation <;> simp [h3, watch_start_tick_animation]

theorem start_tick_mem_standard (P : Platform) (settings : movement_settings_t)
    (dt : watch_date_time) (low : Bool) (w : Watch) :
    Call.start_tick_animation 500 ∈ standard_calls P settings dt low w
      ↔ (low = true ∧ w.tick_animation = false) := by
  unfold standard_calls tick_calls
  cases low <;> cases w.tick_animation <;> simp <;> split_ifs <;> simp

theorem start_tick_mem_tick (low : Bool) (w : Watch) :
    Call.start_tick_animation 500 ∈ tick_calls low w
      ↔ (low = true ∧ w.tick_animation = false) := by
  unfold tick_calls
  cases low <;> cases w.tick_animation <;> simp

/-! ### The low-battery indicator -/

theorem activate_log (P : Platform) (settings : movement_settings_t) (st : k91man_state_t)
    (w : Watch) :
    (k91man_face_activate P settings st w).2.log = w.log ++ activate_calls P settings st w
    ∧ (k91man_face_activate P settings st w).2.lap = w.lap := by
  unfold k91man_face_activate _update_alarm_indicator activate_calls
    watch_tick_animation_is_running
  cases h0 : w.tick_animation <;> cases h1 : P.CLOCK_FACE_24H_ONLY <;>
    cases h2 : settings.clock_mode_24h <;> cases h3 : st.signal_enabled <;>
    cases h4 : settings.alarm_enabled <;>
    simp [watch_set_indicator, watch_clear_indicator, watch_set_colon, watch_stop_tick_animation]

theorem activate_no_lap_clear (P : Platform) (settings : movement_settings_t)
    (st : k91man_state_t) (w : Watch) :
    Call.clear_indicator WATCH_INDICATOR_LAP ∉ activate_calls P settings st w := by
  unfold activate_calls
  cases w.tick_animation <;> cases P.CLOCK_FACE_24H_ONLY <;> cases settings.clock_mode_24h <;>
    cases st.signal_enabled <;> cases settings.alarm_enabled <;> simp

theorem refresh_no_lap_clear (P : Platform) (event : movement_event_t)
    (settings : movement_settings_t) (st : k91man_state_t) (w : Watch) :
    Call.clear_indicator WATCH_INDICATOR_LAP
      ∉ battery_calls st w ++ refresh_calls P event settings st w := by
  have h1 : Call.clear_indicator WATCH_INDICATOR_LAP ∉ battery_calls st w := by
    unfold battery_calls
    split_ifs <;> simp
  have h2 : Call.clear_indicator WATCH_INDICATOR_LAP ∉ alarm_calls settings st := by
    unfold alarm_calls
    split_ifs <;> simp
  have h3 : ∀ low, Call.clear_indicator WATCH_INDICATOR_LAP ∉ tick_calls low w := by
    intro low
    unfold tick_calls
    split_ifs <;> simp
  have h4 : ∀ low, Call.clear_indicator WATCH_INDICATOR_LAP
      ∉ standard_calls P settings w.rtc low w := by
    intro low
    unfold standard_calls
    rw [List.mem_append]
    have := h3 low
    split_ifs <;> simp [this]
  rw [List.mem_append]
  unfold refresh_calls
  cases hp : refresh_path w.rtc st.previous_date_time event.event_type <;> dsimp only <;>
    split_ifs <;> simp [h1, h2, h3, h4]

theorem loop_refresh_lap (P : Platform) (event : movement_event_t)
    (settings : movement_settings_t) (st : k91man_state_t) (w : Watch) :
    (loop_refresh P event settings st w).2.lap = (battery_low_after st w || w.lap) := by
  have hb := battery_check_lap w.rtc { st with previous_date_time := w.rtc.reg } w
  have hs : (loop_battery_check w.rtc { st with previous_date_time := w.rtc.reg } w).1.battery_low
      = battery_low_after st w := by
    rw [battery_check_state]
    unfold battery_low_after
    split_ifs <;> rfl
  rw [hs] at hb
  cases hp : refresh_path w.rtc st.previous_date_time event.event_type
  · rw [loop_refresh_seconds P event settings st w hp]
    dsimp only
    split_ifs <;> simp_all [watch_display_character_lp_seconds]
  · rw [loop_refresh_minutes P event settings st w hp, (sync_alarm_frame _ _ _).2]
    simp_all [watch_display_string]
  · rw [loop_refresh_full P event settings st w hp, (sync_alarm_frame _ _ _).2]
    split_ifs <;>
      simp_all [watch_display_string, (format_countdown_frame _ _ _ _ _).2.2,
        (format_standard_time_frame _ _ _ _ _ _).2.2]

/-- What `k91man_face_loop` does to the low-battery indicator, event by event. -/
theorem loop_lap (P : Platform) (event : movement_event_t)
    (settings : movement_settings_t) (st : k91man_state_t) (w : Watch) :
    (k91man_face_loop P event settings st w).2.2.lap
        = ((is_refresh_event event.event_type && battery_low_after st w) || w.lap)
    ∧ Call.clear_indicator WATCH_INDICATOR_LAP
        ∉ new_calls w (k91man_face_loop P event settings st w).2.2 := by
  cases ht : event.event_type with
  | EVENT_ACTIVATE =>
    have hev : is_refresh_event event.event_type = true := by rw [ht]; rfl
    rw [loop_of_refresh P event settings st w hev,
      new_calls_of_append w _ _ (loop_refresh_log P event settings st w)]
    exact ⟨by rw [loop_refresh_lap]; rfl, refresh_no_lap_clear P event settings st w⟩
  | EVENT_TICK =>
    have hev : is_refresh_event event.event_type = true := by rw [ht]; rfl
    rw [loop_of_refresh P event settings st w hev,
      new_calls_of_append w _ _ (loop_refresh_log P event settings st w)]
    exact ⟨by rw [loop_refresh_lap]; rfl, refresh_no_lap_clear P event settings st w⟩
  | EVENT_LOW_ENERGY_UPDATE =>
    have hev : is_refresh_event event.event_type = true := by rw [ht]; rfl
    rw [loop_of_refresh P event settings st w hev,
      new_calls_of_append w _ _ (loop_refresh_log P event settings st w)]
    exact ⟨by rw [loop_refresh_lap]; rfl, refresh_no_lap_clear P event settings st w⟩
  | EVENT_BACKGROUND_TASK =>
    unfold k91man_face_loop
    rw [ht]
    refine ⟨by simp [movement_play_signal, is_refresh_event], ?_⟩
    rw [new_calls_of_append w _ [Call.play_signal] rfl]
    simp
  | EVENT_ALARM_LONG_PRESS =>
    rw [loop_long_press P event settings st w ht]
    refine ⟨?_, ?_⟩
    · cases st.signal_enabled <;>
        simp [watch_set_indicator, watch_clear_indicator, is_refresh_event]
    · rw [new_calls_of_append w _ [if (!st.signal_enabled) = true then
          Call.set_indicator WATCH_INDICATOR_BELL else Call.clear_indicator WATCH_INDICATOR_BELL]
        (by cases st.signal_enabled <;> simp)]
      cases st.signal_enabled <;> simp
  | EVENT_OTHER code =>
    unfold k91man_face_loop
    rw [ht]
    refine ⟨by simp [is_refresh_event], ?_⟩
    rw [new_calls_of_append w _ [Call.default_loop_handler] rfl]
    simp

/-! ### The full reformat string -/

theorem sample_weekday_two_chars : weekday_two_chars sample_platform := by
  intro d
  show (sample_weekday d).length = 2
  unfold sample_weekday
  simp only []
  generalize hk : (_ : Nat) % 7 = k
  have hlt : k < 7 := by rw [← hk]; exact Nat.mod_lt _ (by decide)
  interval_cases k <;> rfl

theorem sample_weekday_by_date : weekday_by_date sample_platform := by
  intro d d' h1 h2 h3
  show sample_weekday d = sample_weekday d'
  unfold sample_weekday
  rw [h1, h2, h3]

theorem displayed_fields (P : Platform) (settings : movement_settings_t) (c : watch_date_time) :
    (displayed_date_time P settings c).second = c.second
    ∧ (displayed_date_time P settings c).minute = c.minute
    ∧ (displayed_date_time P settings c).day = c.day
    ∧ (displayed_date_time P settings c).month = c.month
    ∧ (displayed_date_time P settings c).year = c.year := by
  unfold displayed_date_time
  split_ifs <;> simp

theorem displayed_hour_congr (P : Platform) (settings : movement_settings_t)
    (c c' : watch_date_time) (h : c.hour = c'.hour) :
    (displayed_date_time P settings c).hour = (displayed_date_time P settings c').hour := by
  unfold displayed_date_time
  rw [h]
  split_ifs <;> first | rfl | exact h

theorem full_string_standard (P : Platform) (settings : movement_settings_t)
    (c : watch_date_time) (w : Watch) (hmode : countdown_mode c = false) :
    full_reformat_string P settings c w = standard_buf P settings c false := by
  unfold full_reformat_string
  unfold countdown_mode at hmode
  rw [hmode, format_standard_time_buf]
  rfl

theorem full_string_countdown (P : Platform) (settings : movement_settings_t)
    (c : watch_date_time) (w : Watch) (hmode : countdown_mode c = true) :
    full_reformat_string P settings c w
      = countdown_buf (countdown_remaining P settings c) false := by
  unfold full_reformat_string
  unfold countdown_mode at hmode
  rw [hmode, format_countdown_buf]
  rfl

/-- The clock string in full power, split after the hour (column 6) and after the minutes
(column 8), for a two-character weekday. -/
theorem standard_buf_parts (P : Platform) (settings : movement_settings_t)
    (c : watch_date_time) (hwd : weekday_two_chars P) :
    (standard_buf P settings c false).take 6
        = P.watch_utility_get_weekday (displayed_date_time P settings c)
          ++ fmt_2d c.day.val ++ fmt_2d (displayed_date_time P settings c).hour.val
    ∧ (standard_buf P settings c false).drop 6 = fmt_02d c.minute.val ++ fmt_02d c.second.val
    ∧ (standard_buf P settings c false).take 8
        = P.watch_utility_get_weekday (displayed_date_time P settings c)
          ++ fmt_2d c.day.val ++ fmt_2d (displayed_date_time P settings c).hour.val
          ++ fmt_02d c.minute.val
    ∧ (standard_buf P settings c false).drop 8 = two_digits c.second.val := by
  obtain ⟨hs, hm, hd, _, _⟩ := displayed_fields P settings c
  have h0 := hwd (displayed_date_time P settings c)
  have h1 := fmt_2d_two_chars c.day.val (by omega)
  have h2 := fmt_2d_two_chars (displayed_date_time P settings c).hour.val (by omega)
  have h3 := fmt_02d_two_chars c.minute.val (by omega)
  have h4 := fmt_02d_two_digits c.second.val (by omega)
  unfold standard_buf
  simp only [Bool.false_eq_true, if_false, hs, hm, hd]
  have l6 : (P.watch_utility_get_weekday (displayed_date_time P settings c)
      ++ fmt_2d c.day.val ++ fmt_2d (displayed_date_time P settings c).hour.val).length = 6 := by
    simp only [List.length_append, h0, h1, h2]
  have l8 : (P.watch_utility_get_weekday (displayed_date_time P settings c)
      ++ fmt_2d c.day.val ++ fmt_2d (displayed_date_time P settings c).hour.val
      ++ fmt_02d c.minute.val).length = 8 := by
    simp only [List.length_append, h0, h1, h2, h3]
  refine ⟨?_, ?_, ?_, ?_⟩
  · rw [List.append_assoc _ (fmt_02d _) (fmt_02d _)]
    exact List.take_left' l6
  · rw [List.append_assoc _ (fmt_02d _) (fmt_02d _)]
    exact List.drop_left' l6
  · exact List.take_left' l8
  · rw [List.drop_left' l8, h4]

/-- The countdown string in full power for a remaining time below one day, split after the
hours (column 6) and after the minutes (column 8). -/
theorem countdown_buf_parts (r : Nat) (hr : r < 86400) :
    (countdown_buf r false).take 6 = [' ', ' ', ' ', ' '] ++ two_digits (r / 3600)
    ∧ (countdown_buf r false).drop 6 = two_digits (r % 3600 / 60) ++ two_digits (r % 60)
    ∧ (countdown_buf r false).take 8
        = [' ', ' ', ' ', ' '] ++ two_digits (r / 3600) ++ two_digits (r % 3600 / 60)
    ∧ (countdown_buf r false).drop 8 = two_digits (r % 60) := by
  rw [countdown_buf_same_day r hr]
  exact ⟨rfl, rfl, rfl, rfl⟩

theorem remaining_lt_day (P : Platform) (settings : movement_settings_t) (dt : watch_date_time)
    (hconv : time_of_day_difference P settings dt) :
    countdown_remaining P settings dt < 86400 := by
  unfold time_of_day_difference time_of_day at hconv
  unfold countdown_remaining
  omega

/-- Hours and minutes of the remaining time, in countdown mode. -/
theorem remaining_fields (P : Platform) (settings : movement_settings_t) (dt : watch_date_time)
    (hconv : time_of_day_difference P settings dt) (hmode : countdown_mode dt = true)
    (hm : dt.minute.val ≤ 59) (hs : dt.second.val ≤ 59) :
    countdown_remaining P settings dt / 3600 = 16 - dt.hour.val
    ∧ countdown_remaining P settings dt % 3600 / 60 = 59 - dt.minute.val := by
  rw [countdown_mode_iff] at hmode
  have hr := remaining_before_5pm P settings dt hconv hmode.2 (by omega) (by omega)
  omega

theorem countdown_mode_congr (c c' : watch_date_time) (h : c.hour = c'.hour) :
    countdown_mode c = countdown_mode c' := by
  unfold countdown_mode
  rw [h]

/-- The first six characters of the full reformat string depend on year, month, day and hour
only. -/
theorem full_string_take6 (P : Platform) (settings : movement_settings_t)
    (c c' : watch_date_time) (w : Watch) (hwd2 : weekday_two_chars P) (hwdd : weekday_by_date P)
    (hagree : agree_to_hour c c')
    (hc : time_of_day_difference P settings c) (hc' : time_of_day_difference P settings c')
    (hm : c.minute.val ≤ 59) (hs : c.second.val ≤ 59)
    (hm' : c'.minute.val ≤ 59) (hs' : c'.second.val ≤ 59) :
    (full_reformat_string P settings c w).take 6
      = (full_reformat_string P settings c' w).take 6 := by
  obtain ⟨hy, hmo, hd, hh⟩ := hagree
  have hmode := countdown_mode_congr c c' hh
  cases hcm : countdown_mode c
  · rw [full_string_standard P settings c w hcm,
      full_string_standard P settings c' w (by rw [← hmode, hcm]),
      (standard_buf_parts P settings c hwd2).1, (standard_buf_parts P settings c' hwd2).1,
      displayed_hour_congr P settings c c' hh, hd]
    obtain ⟨_, _, e3, e4, e5⟩ := displayed_fields P settings c
    obtain ⟨_, _, f3, f4, f5⟩ := displayed_fields P settings c'
    rw [hwdd (displayed_date_time P settings c) (displayed_date_time P settings c')
      (by rw [e5, f5, hy]) (by rw [e4, f4, hmo]) (by rw [e3, f3, hd])]
  · have hcm' : countdown_mode c' = true := by rw [← hmode, hcm]
    rw [full_string_countdown P settings c w hcm, full_string_countdown P settings c' w hcm',
      (countdown_buf_parts _ (remaining_lt_day P settings c hc)).1,
      (countdown_buf_parts _ (remaining_lt_day P settings c' hc')).1,
      (remaining_fields P settings c hc hcm hm hs).1,
      (remaining_fields P settings c' hc' hcm' hm' hs').1, hh]

/-- The first eight characters of the full reformat string depend on every field but the
seconds. -/
theorem full_string_take8 (P : Platform) (settings : movement_settings_t)
    (c c' : watch_date_time) (w : Watch) (hwd2 : weekday_two_chars P) (hwdd : weekday_by_date P)
    (hagree : agree_to_minute c c')
    (hc : time_of_day_difference P settings c) (hc' : time_of_day_difference P settings c')
    (hm : c.minute.val ≤ 59) (hs : c.second.val ≤ 59) (hs' : c'.second.val ≤ 59) :
    (full_reformat_string P settings c w).take 8
      = (full_reformat_string P settings c' w).take 8 := by
  obtain ⟨⟨hy, hmo, hd, hh⟩, hmin⟩ := hagree
  have hmode := countdown_mode_congr c c' hh
  have hm' : c'.minute.val ≤ 59 := by rw [← hmin]; exact hm
  cases hcm : countdown_mode c
  · rw [full_string_standard P settings c w hcm,
      full_string_standard P settings c' w (by rw [← hmode, hcm]),
      (standard_buf_parts P settings c hwd2).2.2.1, (standard_buf_parts P settings c' hwd2).2.2.1,
      displayed_hour_congr P settings c c' hh, hd, hmin]
    obtain ⟨_, _, e3, e4, e5⟩ := displayed_fields P settings c
    obtain ⟨_, _, f3, f4, f5⟩ := displayed_fields P settings c'
    rw [hwdd (displayed_date_time P settings c) (displayed_date_time P settings c')
      (by rw [e5, f5, hy]) (by rw [e4, f4, hmo]) (by rw [e3, f3, hd])]
  · have hcm' : countdown_mode c' = true := by rw [← hmode, hcm]
    rw [full_string_countdown P settings c w hcm, full_string_countdown P settings c' w hcm',
      (countdown_buf_parts _ (remaining_lt_day P settings c hc)).2.2.1,
      (countdown_buf_parts _ (remaining_lt_day P settings c' hc')).2.2.1,
      (remaining_fields P settings c hc hcm hm hs).1,
      (remaining_fields P settings c' hc' hcm' hm' hs').1,
      (remaining_fields P settings c hc hcm hm hs).2,
      (remaining_fields P settings c' hc' hcm' hm' hs').2, hh, hmin]

/-- The characters from column 6 and from column 8 of the full reformat string. -/
theorem full_string_drop (P : Platform) (settings : movement_settings_t)
    (c : watch_date_time) (w : Watch) (hwd2 : weekday_two_chars P)
    (hc : time_of_day_difference P settings c) :
    (full_reformat_string P settings c w).drop 6
        = (if countdown_mode c then
            fmt_02d ((countdown_remaining P settings c % 3600 / 60 : Nat) : Int)
              ++ fmt_02d ((countdown_remaining P settings c % 60 : Nat) : Int)
           else fmt_02d c.minute.val ++ fmt_02d c.second.val)
    ∧ (full_reformat_string P settings c w).drop 8
        = (if countdown_mode c then two_digits (countdown_remaining P settings c % 60)
           else two_digits c.second.val)
    ∧ (full_reformat_string P settings c w).length = 10 := by
  cases hcm : countdown_mode c
  · rw [full_string_standard P settings c w hcm, (standard_buf_parts P settings c hwd2).2.1,
      (standard_buf_parts P settings c hwd2).2.2.2, standard_buf_length, hwd2]
    simp
  · have hr := remaining_lt_day P settings c hc
    rw [full_string_countdown P settings c w hcm, (countdown_buf_parts _ hr).2.1,
      (countdown_buf_parts _ hr).2.2.2, countdown_buf_same_day _ hr,
      fmt_02d_two_digits _ (by omega : countdown_remaining P settings c % 3600 / 60 < 100),
      fmt_02d_two_digits _ (by omega : countdown_remaining P settings c % 60 < 100)]
    simp [two_digits]

/-- A full reformat in full power pushes the full reformat string of the current reading at
column 0. -/
theorem full_reformat_pushes (P : Platform) (event : movement_event_t)
    (settings : movement_settings_t) (st : k91man_state_t) (w : Watch)
    (hev : is_refresh_event event.event_type = true)
    (hlow : event.event_type ≠ EVENT_LOW_ENERGY_UPDATE)
    (hfull : full_update (new_calls w (k91man_face_loop P event settings st w).2.2) = true) :
    ∃ rest, display_writes (new_calls w (k91man_face_loop P event settings st w).2.2)
      = Call.display_string (full_reformat_string P settings w.rtc w) 0 :: rest := by
  rw [full_update_iff_exists, loop_display P event settings st w hev, full_update_iff] at hfull
  rw [loop_display P event settings st w hev]
  unfold refresh_display_writes
  rw [hfull]
  dsimp only
  have hl : decide (event.event_type = EVENT_LOW_ENERGY_UPDATE) = false := by simp [hlow]
  rw [hl]
  cases hcm : countdown_mode w.rtc
  · rw [full_string_standard P settings w.rtc w hcm]
    simp only [Bool.false_eq_true, if_false]
    split_ifs
    · exact ⟨_, rfl⟩
    · exact ⟨_, rfl⟩
  · rw [full_string_countdown P settings w.rtc w hcm]
    simp only [if_true]
    exact ⟨_, rfl⟩

/-! ### The timezone offset -/

theorem tz_offset_lt (P : Platform) (settings : movement_settings_t) :
    _get_tz_offset_seconds P settings < 4294967296 :=
  Nat.mod_lt _ (by decide)

/-- With the offset applied to both timestamps and no wrap-around, the remaining time is the one
computed from the offset-0 timestamps. -/
theorem remaining_of_offset (P : Platform) (settings : movement_settings_t)
    (dt : watch_date_time) (ha : offset_applied P settings dt)
    (hr : representable P settings dt) :
    countdown_remaining P settings dt = local_target P dt - local_now P dt - 1 := by
  have htz := tz_offset_lt P settings
  have h1 : local_now P dt < 4294967296 := Nat.mod_lt _ (by decide)
  have h2 : local_target P dt < 4294967296 := Nat.mod_lt _ (by decide)
  unfold offset_applied at ha
  unfold representable int_of_uint32 at hr
  unfold countdown_remaining
  rw [ha.1, ha.2]
  rw [Nat.mod_eq_of_lt htz] at hr
  split_ifs at hr <;> omega

end helpers

/-! ## The claims -/

section claims

/-- C1: on a refresh event (activate, tick, low-power wake) with previous packed timestamp `p`,
`k91man_face_loop` makes a seconds-only update (exactly two character cells written, columns 8
and 9, no display string pushed) if and only if the current date-time and `p` agree on year,
month, day, hour and minute and the event is not a low-power wake. -/
theorem C1_seconds_only_fast_path (P : Platform) (event : movement_event_t)
    (settings : movement_settings_t) (st : k91man_state_t) (w : Watch)
    (hev : is_refresh_event event.event_type = true)
    (hp : st.previous_date_time < 4294967296) :
    seconds_only_update (new_calls w (k91man_face_loop P event settings st w).2.2)
      ↔ (agree_to_minute w.rtc (watch_date_time.of_reg st.previous_date_time)
          ∧ event.event_type ≠ EVENT_LOW_ENERGY_UPDATE) := by
  rw [seconds_only_update_iff_exists, loop_display P event settings st w hev,
    seconds_update_iff, refresh_path_seconds_iff _ _ _ hp]

theorem C1_seconds_only_fast_path_witness :
    (is_refresh_event (movement_event_t.mk EVENT_TICK 0).event_type = true
      ∧ sample_state_running.previous_date_time < 4294967296)
    ∧ (seconds_only_update (new_calls sample_watch (k91man_face_loop sample_platform
          (movement_event_t.mk EVENT_TICK 0) sample_settings sample_state_running sample_watch).2.2)
        ↔ (agree_to_minute sample_watch.rtc
            (watch_date_time.of_reg sample_state_running.previous_date_time)
          ∧ (movement_event_t.mk EVENT_TICK 0).event_type ≠ EVENT_LOW_ENERGY_UPDATE)) :=
  ⟨⟨by decide, by decide⟩,
    C1_seconds_only_fast_path sample_platform (movement_event_t.mk EVENT_TICK 0) sample_settings
      sample_state_running sample_watch (by decide) (by decide)⟩

/-- C2: on a refresh event, `k91man_face_loop` makes a minutes update (one 4-character string
pushed at column 6) if and only if the current and previous timestamps agree on year, month,
day and hour, differ in the minute, and the event is not a low-power wake; it makes a full
reformat (a string pushed at column 0) if and only if they differ in year, month, day or hour
or the event is a low-power wake; and exactly one of the three updates happens. -/
theorem C2_minutes_and_full_paths (P : Platform) (event : movement_event_t)
    (settings : movement_settings_t) (st : k91man_state_t) (w : Watch)
    (hev : is_refresh_event event.event_type = true)
    (hp : st.previous_date_time < 4294967296) :
    (minutes_update (new_calls w (k91man_face_loop P event settings st w).2.2)
      ↔ (agree_to_hour w.rtc (watch_date_time.of_reg st.previous_date_time)
          ∧ w.rtc.minute ≠ (watch_date_time.of_reg st.previous_date_time).minute
          ∧ event.event_type ≠ EVENT_LOW_ENERGY_UPDATE))
    ∧ (full_update (new_calls w (k91man_face_loop P event settings st w).2.2)
      ↔ (¬ agree_to_hour w.rtc (watch_date_time.of_reg st.previous_date_time)
          ∨ event.event_type = EVENT_LOW_ENERGY_UPDATE))
    ∧ ((seconds_only_update (new_calls w (k91man_face_loop P event settings st w).2.2)
          ∧ ¬ minutes_update (new_calls w (k91man_face_loop P event settings st w).2.2)
          ∧ ¬ full_update (new_calls w (k91man_face_loop P event settings st w).2.2))
      ∨ (¬ seconds_only_update (new_calls w (k91man_face_loop P event settings st w).2.2)
          ∧ minutes_update (new_calls w (k91man_face_loop P event settings st w).2.2)
          ∧ ¬ full_update (new_calls w (k91man_face_loop P event settings st w).2.2))
      ∨ (¬ seconds_only_update (new_calls w (k91man_face_loop P event settings st w).2.2)
          ∧ ¬ minutes_update (new_calls w (k91man_face_loop P event settings st w).2.2)
          ∧ full_update (new_calls w (k91man_face_loop P event settings st w).2.2))) := by
  rw [seconds_only_update_iff_exists, minutes_update_iff_exists, full_update_iff_exists,
    loop_display P event settings st w hev, seconds_update_iff, minutes_update_iff,
    full_update_iff, refresh_path_minutes_iff _ _ _ hp, ← refresh_path_full_iff _ _ _ hp,
    ← refresh_path_minutes_iff _ _ _ hp]
  refine ⟨Iff.rfl, Iff.rfl, ?_⟩
  cases refresh_path w.rtc st.previous_date_time event.event_type <;> simp

theorem C2_minutes_and_full_paths_witness :
    (is_refresh_event (movement_event_t.mk EVENT_TICK 0).event_type = true
      ∧ sample_state_minute_ago.previous_date_time < 4294967296)
    ∧ (minutes_update (new_calls sample_watch (k91man_face_loop sample_platform
          (movement_event_t.mk EVENT_TICK 0) sample_settings sample_state_minute_ago
          sample_watch).2.2)
        ↔ (agree_to_hour sample_watch.rtc
            (watch_date_time.of_reg sample_state_minute_ago.previous_date_time)
          ∧ sample_watch.rtc.minute
            ≠ (watch_date_time.of_reg sample_state_minute_ago.previous_date_time).minute
          ∧ (movement_event_t.mk EVENT_TICK 0).event_type ≠ EVENT_LOW_ENERGY_UPDATE)) :=
  ⟨⟨by decide, by decide⟩,
    (C2_minutes_and_full_paths sample_platform (movement_event_t.mk EVENT_TICK 0)
      sample_settings sample_state_minute_ago sample_watch (by decide) (by decide)).1⟩

/-- C3: in full-power mode, for a time of day `h:m:s` before 17:00:00 (minutes and seconds
below 60), `_format_countdown_to_5pm` renders four blanks and the digits `HHMMSS` with
`HH = 16 - h`, `MM = 59 - m`, `SS = 59 - s`; so 16:00:00 renders `005959` and 16:59:59 renders
`000000`, and exactly 17:00:00 renders `000000` too.  The absolute-time conversion is assumed to
map 17:00:00 and `h:m:s` of the same date and timezone to values whose difference is the
difference of the times of day. -/
theorem C3_countdown_digits (P : Platform) (dt : watch_date_time)
    (settings : movement_settings_t) (w : Watch)
    (hconv : time_of_day_difference P settings dt)
    (hm : dt.minute.val < 60) (hs : dt.second.val < 60) :
    (dt.hour.val < 17 →
      (_format_countdown_to_5pm P dt settings false w).buf
        = [' ', ' ', ' ', ' '] ++ two_digits (16 - dt.hour.val) ++ two_digits (59 - dt.minute.val)
          ++ two_digits (59 - dt.second.val))
    ∧ (dt.hour.val = 16 ∧ dt.minute.val = 0 ∧ dt.second.val = 0 →
      (_format_countdown_to_5pm P dt settings false w).buf
        = [' ', ' ', ' ', ' ', '0', '0', '5', '9', '5', '9'])
    ∧ (dt.hour.val = 16 ∧ dt.minute.val = 59 ∧ dt.second.val = 59 →
      (_format_countdown_to_5pm P dt settings false w).buf
        = [' ', ' ', ' ', ' ', '0', '0', '0', '0', '0', '0'])
    ∧ (dt.hour.val = 17 ∧ dt.minute.val = 0 ∧ dt.second.val = 0 →
      (_format_countdown_to_5pm P dt settings false w).buf
        = [' ', ' ', ' ', ' ', '0', '0', '0', '0', '0', '0']) := by
  have general : dt.hour.val < 17 →
      (_format_countdown_to_5pm P dt settings false w).buf
        = [' ', ' ', ' ', ' '] ++ two_digits (16 - dt.hour.val) ++ two_digits (59 - dt.minute.val)
          ++ two_digits (59 - dt.second.val) := by
    intro hh
    have hr := remaining_before_5pm P settings dt hconv hh hm hs
    rw [format_countdown_buf, countdown_buf_same_day _ (by omega)]
    have e1 : countdown_remaining P settings dt / 3600 = 16 - dt.hour.val := by omega
    have e2 : countdown_remaining P settings dt % 3600 / 60 = 59 - dt.minute.val := by omega
    have e3 : countdown_remaining P settings dt % 60 = 59 - dt.second.val := by omega
    rw [e1, e2, e3]
    rfl
  refine ⟨general, ?_, ?_, ?_⟩
  · rintro ⟨h1, h2, h3⟩
    rw [general (by omega), h1, h2, h3]
    rfl
  · rintro ⟨h1, h2, h3⟩
    rw [general (by omega), h1, h2, h3]
    rfl
  · rintro ⟨h1, _, _⟩
    rw [format_countdown_buf, remaining_from_5pm P settings dt hconv (by omega)]
    rfl

theorem C3_countdown_digits_witness :
    (time_of_day_difference sample_platform sample_settings sample_afternoon
      ∧ sample_afternoon.minute.val < 60 ∧ sample_afternoon.second.val < 60)
    ∧ (_format_countdown_to_5pm sample_platform sample_afternoon sample_settings false
        sample_watch).buf = [' ', ' ', ' ', ' ', '0', '0', '4', '4', '2', '9'] :=
  ⟨⟨by decide, by decide, by decide⟩,
    ((C3_countdown_digits sample_platform sample_afternoon sample_settings sample_watch
      (by decide) (by decide) (by decide)).1 (by decide)).trans (by decide)⟩

/-- C4: on every refresh event the display is written in countdown mode (one of the countdown
renderings: seconds digits of the remaining time, its minutes and seconds, or the countdown
string) when the current hour `h` satisfies `9 <= h < 17`, and in standard clock mode (one of
the clock renderings) for every other hour, whatever the stored state and previous timestamp. -/
theorem C4_mode_by_hour (P : Platform) (event : movement_event_t)
    (settings : movement_settings_t) (st : k91man_state_t) (w : Watch)
    (hev : is_refresh_event event.event_type = true) :
    ((9 ≤ w.rtc.hour.val ∧ w.rtc.hour.val < 17) →
      display_writes (new_calls w (k91man_face_loop P event settings st w).2.2)
        ∈ countdown_renderings P settings w.rtc
            (decide (event.event_type = EVENT_LOW_ENERGY_UPDATE)))
    ∧ (¬ (9 ≤ w.rtc.hour.val ∧ w.rtc.hour.val < 17) →
      display_writes (new_calls w (k91man_face_loop P event settings st w).2.2)
        ∈ standard_renderings P settings w.rtc
            (decide (event.event_type = EVENT_LOW_ENERGY_UPDATE))) := by
  rw [loop_display P event settings st w hev, ← countdown_mode_iff]
  unfold refresh_display_writes countdown_renderings standard_renderings
  constructor
  · intro hm
    cases refresh_path w.rtc st.previous_date_time event.event_type <;> simp [hm]
  · intro hm
    cases refresh_path w.rtc st.previous_date_time event.event_type <;> dsimp only <;>
      split_ifs <;> simp

theorem C4_mode_by_hour_witness :
    is_refresh_event (movement_event_t.mk EVENT_TICK 0).event_type = true
    ∧ display_writes (new_calls sample_watch (k91man_face_loop sample_platform
          (movement_event_t.mk EVENT_TICK 0) sample_settings sample_state sample_watch).2.2)
        ∈ countdown_renderings sample_platform sample_settings sample_watch.rtc
            (decide ((movement_event_t.mk EVENT_TICK 0).event_type = EVENT_LOW_ENERGY_UPDATE)) :=
  ⟨by decide,
    (C4_mode_by_hour sample_platform (movement_event_t.mk EVENT_TICK 0) sample_settings
      sample_state sample_watch (by decide)).1 (by decide)⟩

/-- C5: the three copies of the countdown arithmetic (in `_format_countdown_to_5pm` and in the
seconds and minutes paths of the loop) render the remaining time `max(0, target - now)` less one
second when positive: the 32-bit subtractions never wrap, so the value is never negative nor a
huge wrapped number.  At or after 17:00:00 (under the assumption on the absolute-time conversion)
the remaining time is 0 and is rendered as `000000`. -/
theorem C5_countdown_clamped (P : Platform) (dt : watch_date_time)
    (settings : movement_settings_t) (w : Watch) :
    ((countdown_remaining P settings dt : Int)
        = max (max ((unix_target P settings dt : Int) - (unix_now P settings dt : Int)) 0 - 1) 0)
    ∧ (∀ low, (_format_countdown_to_5pm P dt settings low w).buf
        = countdown_buf (countdown_remaining P settings dt) low)
    ∧ loop_seconds_countdown P dt settings w
        = watch_display_character_lp_seconds (48 + countdown_remaining P settings dt % 60 % 10) 9
            (watch_display_character_lp_seconds
              (48 + countdown_remaining P settings dt % 60 / 10) 8 w)
    ∧ loop_minutes_countdown P dt settings
        = fmt_02d ((countdown_remaining P settings dt % 3600 / 60 : Nat) : Int)
          ++ fmt_02d ((countdown_remaining P settings dt % 60 : Nat) : Int)
    ∧ (time_of_day_difference P settings dt → 17 ≤ dt.hour.val →
        countdown_remaining P settings dt = 0
        ∧ (_format_countdown_to_5pm P dt settings false w).buf
            = [' ', ' ', ' ', ' ', '0', '0', '0', '0', '0', '0']
        ∧ (_format_countdown_to_5pm P dt settings true w).buf
            = [' ', ' ', ' ', ' ', '0', '0', '0', '0', ' ', ' ']
        ∧ loop_seconds_countdown P dt settings w
            = watch_display_character_lp_seconds 48 9 (watch_display_character_lp_seconds 48 8 w)
        ∧ loop_minutes_countdown P dt settings = ['0', '0', '0', '0']) := by
  refine ⟨?_, fun low => format_countdown_buf P dt settings low w,
    loop_seconds_countdown_eq P dt settings w, loop_minutes_countdown_eq P dt settings, ?_⟩
  · unfold countdown_remaining
    omega
  · intro hconv hh
    have h0 := remaining_from_5pm P settings dt hconv hh
    refine ⟨h0, ?_, ?_, ?_, ?_⟩
    · rw [format_countdown_buf, h0]; rfl
    · rw [format_countdown_buf, h0]; rfl
    · rw [loop_seconds_countdown_eq, h0]
    · rw [loop_minutes_countdown_eq, h0]; rfl

theorem C5_countdown_clamped_witness :
    (time_of_day_difference sample_platform sample_settings sample_evening
      ∧ 17 ≤ sample_evening.hour.val)
    ∧ countdown_remaining sample_platform sample_settings sample_evening = 0
    ∧ (_format_countdown_to_5pm sample_platform sample_evening sample_settings false
        sample_watch).buf = [' ', ' ', ' ', ' ', '0', '0', '0', '0', '0', '0'] :=
  ⟨⟨by decide, by decide⟩,
    ((C5_countdown_clamped sample_platform sample_evening sample_settings sample_watch).2.2.2.2
      (by decide) (by decide)).1,
    ((C5_countdown_clamped sample_platform sample_evening sample_settings sample_watch).2.2.2.2
      (by decide) (by decide)).2.1⟩

/-- C6: `k91man_face_activate` sets `previous_date_time` to `0xFFFFFFFF` whatever the prior
state; and the first refresh event after it, for every RTC reading that is a valid calendar
date-time, makes a full reformat, not a seconds-only or minutes update. -/
theorem C6_activate_forces_full_reformat (P : Platform) (settings : movement_settings_t)
    (st : k91man_state_t) (w : Watch) :
    (k91man_face_activate P settings st w).1.previous_date_time = 0xFFFFFFFF
    ∧ ∀ (event : movement_event_t) (settings' : movement_settings_t) (w' : Watch),
        is_refresh_event event.event_type = true → valid_date_time w'.rtc →
        full_update (new_calls w' (k91man_face_loop P event settings'
          (k91man_face_activate P settings st w).1 w').2.2)
        ∧ ¬ seconds_only_update (new_calls w' (k91man_face_loop P event settings'
          (k91man_face_activate P settings st w).1 w').2.2)
        ∧ ¬ minutes_update (new_calls w' (k91man_face_loop P event settings'
          (k91man_face_activate P settings st w).1 w').2.2) := by
  refine ⟨rfl, ?_⟩
  intro event settings' w' hev hvalid
  have hp := sentinel_path_full w'.rtc event.event_type hvalid
  rw [← activate_previous P settings st w] at hp
  rw [seconds_only_update_iff_exists, minutes_update_iff_exists, full_update_iff_exists,
    loop_display P event settings' _ w' hev, seconds_update_iff, minutes_update_iff,
    full_update_iff, hp]
  simp

theorem C6_activate_forces_full_reformat_witness :
    (is_refresh_event (movement_event_t.mk EVENT_ACTIVATE 0).event_type = true
      ∧ valid_date_time sample_watch.rtc)
    ∧ full_update (new_calls sample_watch (k91man_face_loop sample_platform
        (movement_event_t.mk EVENT_ACTIVATE 0) sample_settings
        (k91man_face_activate sample_platform sample_settings sample_state_running
          sample_watch).1 sample_watch).2.2) :=
  ⟨⟨by decide, by decide⟩,
    ((C6_activate_forces_full_reformat sample_platform sample_settings sample_state_running
      sample_watch).2 (movement_event_t.mk EVENT_ACTIVATE 0) sample_settings sample_watch
      (by decide) (by decide)).1⟩

/-- C7: on a refresh event, if the current day of month equals `last_battery_check`, no voltage
sample is taken and `battery_low` is unchanged; otherwise the sensor calls are exactly enable,
one sample, disable (the ADC is off afterwards), `last_battery_check` becomes the current day
and `battery_low` becomes `voltage < 2200`.  Over a sequence of refresh events with one and the
same day at most one sample is taken, and a `battery_low` that is true stays true until a
refresh with a day other than the last checked one samples a voltage not below 2200. -/
theorem C7_battery_check_once_per_day (P : Platform) (event : movement_event_t)
    (settings : movement_settings_t) (st : k91man_state_t) (w : Watch)
    (hev : is_refresh_event event.event_type = true) :
    (w.rtc.day.val = st.last_battery_check →
      adc_calls (new_calls w (k91man_face_loop P event settings st w).2.2) = []
      ∧ samples (new_calls w (k91man_face_loop P event settings st w).2.2) = 0
      ∧ (k91man_face_loop P event settings st w).2.1.battery_low = st.battery_low
      ∧ (k91man_face_loop P event settings st w).2.1.last_battery_check = st.last_battery_check)
    ∧ (w.rtc.day.val ≠ st.last_battery_check →
      adc_calls (new_calls w (k91man_face_loop P event settings st w).2.2)
        = [Call.enable_adc, Call.get_vcc_voltage, Call.disable_adc]
      ∧ samples (new_calls w (k91man_face_loop P event settings st w).2.2) = 1
      ∧ (k91man_face_loop P event settings st w).2.2.adc = false
      ∧ (k91man_face_loop P event settings st w).2.1.last_battery_check = w.rtc.day.val
      ∧ (k91man_face_loop P event settings st w).2.1.battery_low
          = decide (w.vcc % 65536 < 2200))
    ∧ (∀ (steps : List RefreshStep) (d : Nat),
        (∀ e ∈ steps, is_refresh_event e.event.event_type = true ∧ e.rtc.day.val = d) →
        samples (new_calls w (run_events P steps st w).2) ≤ 1)
    ∧ (∀ (steps : List RefreshStep),
        (∀ e ∈ steps, is_refresh_event e.event.event_type = true) →
        st.battery_low = true → (run_events P steps st w).1.battery_low = false →
        ∃ pre e post, steps = pre ++ e :: post
          ∧ (run_events P pre st w).1.battery_low = true
          ∧ e.rtc.day.val ≠ (run_events P pre st w).1.last_battery_check
          ∧ ¬ (e.vcc % 65536 < 2200)) := by
  have hadc := loop_adc_calls P event settings st w hev
  obtain ⟨_, _, _, hlast, hlow⟩ := loop_step_samples P event settings st w hev
  have hoff : (k91man_face_loop P event settings st w).2.2.adc
      = if w.rtc.day.val ≠ st.last_battery_check then false else w.adc := by
    rw [loop_of_refresh P event settings st w hev]
    exact loop_refresh_adc P event settings st w
  refine ⟨?_, ?_, ?_, ?_⟩
  · intro hd
    rw [hadc.1, hadc.2, hlast, hlow]
    simp [hd, battery_low_after]
  · intro hd
    rw [hadc.1, hadc.2, hlast, hlow, hoff]
    simp [hd, battery_low_after]
  · intro steps d h
    obtain ⟨l, hl, hs⟩ := run_events_samples P d steps st w h
    rw [new_calls_of_append w _ l hl]
    split_ifs at hs <;> omega
  · intro steps h
    exact run_events_sticky P steps st w h

theorem C7_battery_check_once_per_day_witness :
    is_refresh_event (movement_event_t.mk EVENT_TICK 0).event_type = true
    ∧ adc_calls (new_calls sample_watch (k91man_face_loop sample_platform
        (movement_event_t.mk EVENT_TICK 0) sample_settings sample_state_yesterday
        sample_watch).2.2) = [Call.enable_adc, Call.get_vcc_voltage, Call.disable_adc] :=
  ⟨by decide,
    ((C7_battery_check_once_per_day sample_platform (movement_event_t.mk EVENT_TICK 0)
      sample_settings sample_state_yesterday sample_watch (by decide)).2.1 (by decide)).1⟩

/-- C8: in 12-hour mode (`clock_mode_24h` off, not built 24h-only), `_format_standard_time`
prints the hour `((h + 11) mod 12) + 1`, which lies in 1..12, between the day and the minutes,
and leaves the PM indicator set exactly when `h >= 12` (the call it makes is "set" for
`h >= 12` and "clear" for `h < 12`); so 0 prints as 12 with PM cleared, 13 as 1 and 23 as 11
with PM set. -/
theorem C8_twelve_hour_conversion (P : Platform) (dt : watch_date_time)
    (settings : movement_settings_t) (lz low_energy : Bool) (w : Watch)
    (h24only : P.CLOCK_FACE_24H_ONLY = false) (hmode : settings.clock_mode_24h = false) :
    (_format_standard_time P dt settings lz low_energy w).buf
      = P.watch_utility_get_weekday { dt with hour := Fin.ofNat ((dt.hour.val + 11) % 12 + 1) }
        ++ fmt_2d dt.day.val ++ fmt_2d (((dt.hour.val + 11) % 12 + 1 : Nat) : Int)
        ++ fmt_02d dt.minute.val ++ (if low_energy then [' ', ' '] else fmt_02d dt.second.val)
    ∧ (1 ≤ (dt.hour.val + 11) % 12 + 1 ∧ (dt.hour.val + 11) % 12 + 1 ≤ 12)
    ∧ (_format_standard_time P dt settings lz low_energy w).watch.pm = decide (12 ≤ dt.hour.val)
    ∧ (12 ≤ dt.hour.val → Call.set_indicator WATCH_INDICATOR_PM
        ∈ new_calls w (_format_standard_time P dt settings lz low_energy w).watch)
    ∧ (dt.hour.val < 12 → Call.clear_indicator WATCH_INDICATOR_PM
        ∈ new_calls w (_format_standard_time P dt settings lz low_energy w).watch)
    ∧ (dt.hour.val = 0 → fmt_2d (((dt.hour.val + 11) % 12 + 1 : Nat) : Int) = ['1', '2']
        ∧ (_format_standard_time P dt settings lz low_energy w).watch.pm = false)
    ∧ (dt.hour.val = 13 → fmt_2d (((dt.hour.val + 11) % 12 + 1 : Nat) : Int) = [' ', '1']
        ∧ (_format_standard_time P dt settings lz low_energy w).watch.pm = true)
    ∧ (dt.hour.val = 23 → fmt_2d (((dt.hour.val + 11) % 12 + 1 : Nat) : Int) = ['1', '1']
        ∧ (_format_standard_time P dt settings lz low_energy w).watch.pm = true) := by
  have hpm := format_standard_time_pm P dt settings lz low_energy w h24only hmode
  have hlog := new_calls_of_append w _ _ (format_standard_time_log P dt settings lz low_energy w)
  have hlt : dt.hour < 12 ↔ dt.hour.val < 12 := Iff.rfl
  have hof : (Fin.ofNat ((dt.hour.val + 11) % 12 + 1) : Fin 32).val
      = (dt.hour.val + 11) % 12 + 1 := by
    show ((dt.hour.val + 11) % 12 + 1) % 32 = _
    omega
  refine ⟨?_, ⟨by omega, by omega⟩, hpm, ?_, ?_, ?_, ?_, ?_⟩
  · rw [format_standard_time_buf, standard_buf, displayed_12h P settings dt h24only hmode]
    simp only [hof]
  · intro h
    rw [hlog]
    have : ¬ dt.hour.val < 12 := by omega
    simp [standard_calls, h24only, hmode, hlt, this]
  · intro h
    rw [hlog]
    simp [standard_calls, h24only, hmode, hlt, h]
  · intro h
    rw [hpm, h]
    exact ⟨rfl, rfl⟩
  · intro h
    rw [hpm, h]
    exact ⟨rfl, rfl⟩
  · intro h
    rw [hpm, h]
    exact ⟨rfl, rfl⟩

theorem C8_twelve_hour_conversion_witness :
    (sample_platform.CLOCK_FACE_24H_ONLY = false ∧ sample_settings.clock_mode_24h = false)
    ∧ (_format_standard_time sample_platform sample_evening sample_settings false false
        sample_watch).buf = ['T', 'H', ' ', '3', ' ', '7', '4', '0', '0', '0']
    ∧ (_format_standard_time sample_platform sample_evening sample_settings false false
        sample_watch).watch.pm = true :=
  ⟨⟨rfl, rfl⟩,
    (C8_twelve_hour_conversion sample_platform sample_evening sample_settings false false
      sample_watch rfl rfl).1.trans (by decide),
    (C8_twelve_hour_conversion sample_platform sample_evening sample_settings false false
      sample_watch rfl rfl).2.2.1.trans (by decide)⟩

/-- C9: `k91man_face_wants_background_task` returns true if and only if `signal_enabled` is
true and the minute field of the current RTC reading is 0; it leaves the state (and the watch)
as they were. -/
theorem C9_wants_background_task (settings : movement_settings_t) (st : k91man_state_t)
    (w : Watch) :
    ((k91man_face_wants_background_task settings st w).1 = true
      ↔ (st.signal_enabled = true ∧ w.rtc.minute.val = 0))
    ∧ (k91man_face_wants_background_task settings st w).2 = (st, w) := by
  unfold k91man_face_wants_background_task watch_rtc_get_date_time
  cases h : st.signal_enabled <;> simp

/-- C10, as stated, fails twice.  On the seconds-only path (previous timestamp 16:15:29, now
16:15:30) the mirror stays `false` although the setting is `true`; and on a full reformat with
the mirror already equal to the setting, an indicator that was off stays off. -/
theorem C10_counterexample :
    (is_refresh_event (movement_event_t.mk EVENT_TICK 0).event_type = true
      ∧ ¬ ((k91man_face_loop sample_platform (movement_event_t.mk EVENT_TICK 0) sample_settings
              sample_state_running sample_watch).2.1.alarm_enabled = sample_settings.alarm_enabled
          ∧ ((k91man_face_loop sample_platform (movement_event_t.mk EVENT_TICK 0) sample_settings
              sample_state_running sample_watch).2.2.signal = true
            ↔ sample_settings.alarm_enabled = true)))
    ∧ ¬ ((k91man_face_loop sample_platform (movement_event_t.mk EVENT_TICK 0) sample_settings
              sample_state_mirrored sample_watch).2.1.alarm_enabled = sample_settings.alarm_enabled
          ∧ ((k91man_face_loop sample_platform (movement_event_t.mk EVENT_TICK 0) sample_settings
              sample_state_mirrored sample_watch).2.2.signal = true
            ↔ sample_settings.alarm_enabled = true)) := by
  decide

/-- C10, amended: after a refresh event that is not a seconds-only update (a minutes update or
a full reformat) the mirror `state.alarm_enabled` equals `settings.alarm_enabled`, and if the
alarm indicator agreed with the mirror on entry it is now set if and only if the alarm is
enabled; a seconds-only update leaves the mirror and the indicator as they were.  Activation
leaves the indicator in agreement with the mirror. -/
theorem C10_alarm_resync_amended (P : Platform) (event : movement_event_t)
    (settings : movement_settings_t) (st : k91man_state_t) (w : Watch)
    (hev : is_refresh_event event.event_type = true) :
    (¬ seconds_only_update (new_calls w (k91man_face_loop P event settings st w).2.2) →
      (k91man_face_loop P event settings st w).2.1.alarm_enabled = settings.alarm_enabled
      ∧ (w.signal = st.alarm_enabled →
          ((k91man_face_loop P event settings st w).2.2.signal = true
            ↔ settings.alarm_enabled = true)))
    ∧ (seconds_only_update (new_calls w (k91man_face_loop P event settings st w).2.2) →
      (k91man_face_loop P event settings st w).2.1.alarm_enabled = st.alarm_enabled
      ∧ (k91man_face_loop P event settings st w).2.2.signal = w.signal)
    ∧ (k91man_face_activate P settings st w).2.signal
        = (k91man_face_activate P settings st w).1.alarm_enabled := by
  have hpath : seconds_only_update (new_calls w (k91man_face_loop P event settings st w).2.2)
      ↔ refresh_path w.rtc st.previous_date_time event.event_type = RefreshPath.seconds := by
    rw [seconds_only_update_iff_exists, loop_display P event settings st w hev,
      seconds_update_iff]
  rw [hpath, loop_of_refresh P event settings st w hev]
  simp only [loop_refresh_state, loop_refresh_signal]
  refine ⟨?_, ?_, ?_⟩
  · intro hp
    simp only [if_neg hp]
    refine ⟨trivial, ?_⟩
    intro hw
    rw [hw]
    cases h1 : st.alarm_enabled <;> cases h2 : settings.alarm_enabled <;> simp
  · intro hp
    simp only [if_pos hp]
    exact ⟨trivial, trivial⟩
  · rw [(activate_alarm P settings st w).1, (activate_alarm P settings st w).2]

theorem C10_alarm_resync_amended_witness :
    is_refresh_event (movement_event_t.mk EVENT_TICK 0).event_type = true
    ∧ (k91man_face_loop sample_platform (movement_event_t.mk EVENT_TICK 0) sample_settings
        sample_state sample_watch).2.1.alarm_enabled = sample_settings.alarm_enabled :=
  ⟨by decide,
    ((C10_alarm_resync_amended sample_platform (movement_event_t.mk EVENT_TICK 0)
      sample_settings sample_state sample_watch (by decide)).1 (by decide)).1⟩

/-- C11: `k91man_face_setup` called with an existing context returns that context with every
field of the state unchanged, whatever the index and the state; called with a null context it
produces a state with `signal_enabled = false` and `watch_face_index` equal to the given index
(a `uint8_t`), whatever the allocated memory held. -/
theorem C11_setup_idempotent (settings : movement_settings_t) (watch_face_index : Nat)
    (fresh : k91man_state_t) :
    (∀ st : k91man_state_t,
      k91man_face_setup settings watch_face_index fresh (some st) = some st)
    ∧ (watch_face_index < 256 →
      ∃ st, k91man_face_setup settings watch_face_index fresh none = some st
        ∧ st.signal_enabled = false ∧ st.watch_face_index = watch_face_index) := by
  refine ⟨fun st => rfl, fun h => ⟨_, rfl, rfl, ?_⟩⟩
  exact Nat.mod_eq_of_lt h

theorem C11_setup_idempotent_witness :
    (3 : Nat) < 256
    ∧ ∃ st, k91man_face_setup sample_settings 3 sample_state none = some st
        ∧ st.signal_enabled = false ∧ st.watch_face_index = 3 :=
  ⟨by decide, (C11_setup_idempotent sample_settings 3 sample_state).2 (by decide)⟩

/-- C12: for every date-time and settings, in full-power and in low-power mode, the string
`_format_standard_time` writes has exactly 10 characters, so that with its terminator it fits the
11-byte buffer of `k91man_face_loop`: it is the abbreviation the weekday collaborator returns
(two characters, as the display layout has it) followed by exactly eight characters. -/
theorem C12_standard_string_length (P : Platform) (dt : watch_date_time)
    (settings : movement_settings_t) (lz low_energy : Bool) (w : Watch)
    (hwd : weekday_two_chars P) :
    (_format_standard_time P dt settings lz low_energy w).buf.length = 10
    ∧ (_format_standard_time P dt settings lz low_energy w).buf.length + 1 ≤ 11
    ∧ (∃ rest, rest.length = 8
      ∧ (_format_standard_time P dt settings lz low_energy w).buf
        = P.watch_utility_get_weekday (displayed_date_time P settings dt) ++ rest) := by
  have hlen := standard_buf_length P settings dt low_energy
  rw [hwd] at hlen
  rw [format_standard_time_buf]
  refine ⟨hlen, by omega, ⟨(standard_buf P settings dt low_energy).drop
      (P.watch_utility_get_weekday (displayed_date_time P settings dt)).length, ?_, ?_⟩⟩
  · rw [List.length_drop, hlen, hwd]
  · unfold standard_buf
    simp only [List.append_assoc, List.drop_left]

theorem C12_standard_string_length_witness :
    weekday_two_chars sample_platform
    ∧ (_format_standard_time sample_platform sample_evening sample_settings false false
        sample_watch).buf.length = 10
    ∧ (_format_standard_time sample_platform sample_evening sample_settings false true
        sample_watch).buf.length = 10 :=
  ⟨sample_weekday_two_chars,
    (C12_standard_string_length sample_platform sample_evening sample_settings false false
      sample_watch sample_weekday_two_chars).1,
    (C12_standard_string_length sample_platform sample_evening sample_settings false true
      sample_watch sample_weekday_two_chars).1⟩

/-- C13: `_format_standard_time` raises the leading-zero flag (returns it `true` when it came in
`false`) if and only if 24-hour mode is on, the 24-hour leading-zero option is on and the hour
is below 10; it never lowers a flag that came in raised; in 12-hour mode it never raises it; and
on a refresh event `k91man_face_loop` writes the literal "0" at column 4 exactly on a full
reformat in standard mode with the flag raised. -/
theorem C13_leading_zero_flag (P : Platform) (event : movement_event_t)
    (settings : movement_settings_t) (st : k91man_state_t) (w : Watch) (dt : watch_date_time)
    (low_energy : Bool) (hev : is_refresh_event event.event_type = true) :
    ((_format_standard_time P dt settings false low_energy w).set_leading_zero = true
      ↔ (settings.clock_mode_24h = true ∧ settings.clock_24h_leading_zero = true
          ∧ dt.hour.val < 10))
    ∧ (_format_standard_time P dt settings true low_energy w).set_leading_zero = true
    ∧ (settings.clock_mode_24h = false →
        (_format_standard_time P dt settings false low_energy w).set_leading_zero = false)
    ∧ (Call.display_string ['0'] 4 ∈ new_calls w (k91man_face_loop P event settings st w).2.2
      ↔ (full_update (new_calls w (k91man_face_loop P event settings st w).2.2) = true
          ∧ ¬ (9 ≤ w.rtc.hour.val ∧ w.rtc.hour.val < 17)
          ∧ (_format_standard_time P w.rtc settings false
              (decide (event.event_type = EVENT_LOW_ENERGY_UPDATE)) w).set_leading_zero
            = true)) := by
  refine ⟨?_, ?_, ?_, ?_⟩
  · rw [format_standard_time_lz, leading_zero_iff]
  · rw [format_standard_time_lz]
    unfold standard_leading_zero
    split_ifs <;> rfl
  · intro h
    rw [format_standard_time_lz]
    cases hz : standard_leading_zero P settings dt false
    · rfl
    · exact absurd ((leading_zero_iff P settings dt).mp hz).1 (by simp [h])
  · rw [mem_display_writes (Call.display_string ['0'] 4) _ rfl, full_update_iff_exists,
      loop_display P event settings st w hev, full_update_iff, leading_zero_write_iff,
      format_standard_time_lz, ← countdown_mode_iff]
    simp

theorem C13_leading_zero_flag_witness :
    (is_refresh_event (movement_event_t.mk EVENT_TICK 0).event_type = true
      ∧ sample_settings.clock_mode_24h = false)
    ∧ ((_format_standard_time sample_platform sample_evening sample_settings false false
          sample_watch).set_leading_zero = true
        ↔ (sample_settings.clock_mode_24h = true ∧ sample_settings.clock_24h_leading_zero = true
            ∧ sample_evening.hour.val < 10))
    ∧ (_format_standard_time sample_platform sample_evening sample_settings false false
          sample_watch).set_leading_zero = false :=
  ⟨⟨by decide, rfl⟩,
    (C13_leading_zero_flag sample_platform (movement_event_t.mk EVENT_TICK 0) sample_settings
      sample_state sample_watch sample_evening false (by decide)).1,
    (C13_leading_zero_flag sample_platform (movement_event_t.mk EVENT_TICK 0) sample_settings
      sample_state sample_watch sample_evening false (by decide)).2.2.1 rfl⟩

/-- C14: handling an alarm long-press event negates `signal_enabled`, leaves every other state
field unchanged, makes exactly one call (set the bell indicator if the new value is true, clear
it otherwise), leaves the bell indicator equal to the new value and returns true.  Two long
presses in a row restore the original state and leave the bell indicator showing the original
`signal_enabled`: the original indicator, when it showed `signal_enabled` (as it does after
activation and after every long press). -/
theorem C14_long_press_toggles_signal (P : Platform) (event : movement_event_t)
    (settings : movement_settings_t) (st : k91man_state_t) (w : Watch)
    (hev : event.event_type = EVENT_ALARM_LONG_PRESS) :
    (k91man_face_loop P event settings st w).1 = true
    ∧ (k91man_face_loop P event settings st w).2.1
        = { st with signal_enabled := !st.signal_enabled }
    ∧ new_calls w (k91man_face_loop P event settings st w).2.2
        = [if (!st.signal_enabled) = true then Call.set_indicator WATCH_INDICATOR_BELL
           else Call.clear_indicator WATCH_INDICATOR_BELL]
    ∧ (k91man_face_loop P event settings st w).2.2.bell = !st.signal_enabled
    ∧ (k91man_face_loop P event settings
          (k91man_face_loop P event settings st w).2.1
          (k91man_face_loop P event settings st w).2.2).2.1 = st
    ∧ (k91man_face_loop P event settings
          (k91man_face_loop P event settings st w).2.1
          (k91man_face_loop P event settings st w).2.2).2.2.bell = st.signal_enabled
    ∧ (w.bell = st.signal_enabled →
        (k91man_face_loop P event settings
          (k91man_face_loop P event settings st w).2.1
          (k91man_face_loop P event settings st w).2.2).2.2.bell = w.bell)
    ∧ (k91man_face_activate P settings st w).2.bell
        = (k91man_face_activate P settings st w).1.signal_enabled := by
  have h2 : ∀ (s : k91man_state_t) (v : Watch),
      (k91man_face_loop P event settings s v).2.2.bell = !s.signal_enabled := by
    intro s v
    rw [loop_long_press P event settings s v hev]
    cases s.signal_enabled <;> rfl
  have hst : (k91man_face_loop P event settings st w).2.1
      = { st with signal_enabled := !st.signal_enabled } := by
    rw [loop_long_press P event settings st w hev]
  refine ⟨?_, hst, ?_, h2 st w, ?_, ?_, ?_, ?_⟩
  · rw [loop_long_press P event settings st w hev]
  · rw [loop_long_press P event settings st w hev]
    apply new_calls_of_append
    cases st.signal_enabled <;> simp
  · rw [loop_long_press P event settings _ _ hev, hst]
    cases st
    simp
  · rw [h2, hst]
    simp
  · intro hw
    rw [h2, hst, hw]
    simp
  · unfold k91man_face_activate _update_alarm_indicator
    cases st.signal_enabled <;> cases settings.alarm_enabled <;>
      simp [watch_set_indicator, watch_clear_indicator, watch_set_colon]

theorem C14_long_press_toggles_signal_witness :
    (long_press.event_type = EVENT_ALARM_LONG_PRESS
      ∧ sample_watch.bell = sample_state_quiet.signal_enabled)
    ∧ (k91man_face_loop sample_platform long_press sample_settings sample_state_quiet
        sample_watch).2.1
        = { sample_state_quiet with signal_enabled := !sample_state_quiet.signal_enabled }
    ∧ (k91man_face_loop sample_platform long_press sample_settings
        (k91man_face_loop sample_platform long_press sample_settings sample_state_quiet
          sample_watch).2.1
        (k91man_face_loop sample_platform long_press sample_settings sample_state_quiet
          sample_watch).2.2).2.2.bell = sample_watch.bell :=
  ⟨⟨rfl, rfl⟩,
    (C14_long_press_toggles_signal sample_platform long_press sample_settings sample_state_quiet
      sample_watch rfl).2.1,
    (C14_long_press_toggles_signal sample_platform long_press sample_settings sample_state_quiet
      sample_watch rfl).2.2.2.2.2.2.1 rfl⟩

/-- C15: the low-power string of each formatter is its full-power string with the last two
characters (the seconds) replaced by two blanks; and in low-power mode each formatter starts the
tick animation (interval 500) if and only if it is not already running, so that the animation
runs afterwards. -/
theorem C15_low_power_output (P : Platform) (dt : watch_date_time)
    (settings : movement_settings_t) (lz : Bool) (w : Watch) :
    (_format_standard_time P dt settings lz true w).buf
        = blank_last_two (_format_standard_time P dt settings lz false w).buf
    ∧ (_format_countdown_to_5pm P dt settings true w).buf
        = blank_last_two (_format_countdown_to_5pm P dt settings false w).buf
    ∧ (Call.start_tick_animation 500
          ∈ new_calls w (_format_standard_time P dt settings lz true w).watch
        ↔ w.tick_animation = false)
    ∧ (Call.start_tick_animation 500
          ∈ new_calls w (_format_countdown_to_5pm P dt settings true w).watch
        ↔ w.tick_animation = false)
    ∧ (_format_standard_time P dt settings lz true w).watch.tick_animation = true
    ∧ (_format_countdown_to_5pm P dt settings true w).watch.tick_animation = true := by
  refine ⟨?_, ?_, ?_, ?_, ?_, ?_⟩
  · rw [format_standard_time_buf, format_standard_time_buf, standard_buf_low]
  · rw [format_countdown_buf, format_countdown_buf, countdown_buf_low]
  · rw [new_calls_of_append w _ _ (format_standard_time_log P dt settings lz true w),
      start_tick_mem_standard]
    simp
  · rw [new_calls_of_append w _ _ (format_countdown_log P dt settings true w),
      start_tick_mem_tick]
    simp
  · rw [format_standard_time_tick]
    rfl
  · rw [format_countdown_tick]
    rfl

/-- C16: on every refresh event, whichever refresh path is taken, if `battery_low` is true after
the battery check then the low-battery (LAP) indicator is set when `k91man_face_loop` returns;
no event the loop handles itself clears the indicator (it stays set if it was set, and no "clear
LAP" call is made), nor does `k91man_face_activate`; `k91man_face_resign` changes nothing and
`k91man_face_setup` has no access to the display. -/
theorem C16_low_battery_indicator (P : Platform) (event : movement_event_t)
    (settings : movement_settings_t) (st : k91man_state_t) (w : Watch) :
    (is_refresh_event event.event_type = true →
      (k91man_face_loop P event settings st w).2.1.battery_low = true →
      (k91man_face_loop P event settings st w).2.2.lap = true)
    ∧ (handled_by_face event.event_type = true →
      (w.lap = true → (k91man_face_loop P event settings st w).2.2.lap = true)
      ∧ Call.clear_indicator WATCH_INDICATOR_LAP
          ∉ new_calls w (k91man_face_loop P event settings st w).2.2)
    ∧ (k91man_face_activate P settings st w).2.lap = w.lap
    ∧ Call.clear_indicator WATCH_INDICATOR_LAP
        ∉ new_calls w (k91man_face_activate P settings st w).2
    ∧ k91man_face_resign settings st w = (st, w) := by
  have hl := loop_lap P event settings st w
  refine ⟨?_, ?_, (activate_log P settings st w).2, ?_, rfl⟩
  · intro hev hlow
    rw [loop_of_refresh P event settings st w hev] at hlow
    simp only [loop_refresh_state] at hlow
    rw [hl.1, hev, hlow]
    rfl
  · intro _
    refine ⟨fun hw => ?_, hl.2⟩
    rw [hl.1, hw]
    simp
  · rw [new_calls_of_append w _ _ (activate_log P settings st w).1]
    exact activate_no_lap_clear P settings st w

theorem C16_low_battery_indicator_witness :
    (is_refresh_event (movement_event_t.mk EVENT_TICK 0).event_type = true
      ∧ (k91man_face_loop sample_platform (movement_event_t.mk EVENT_TICK 0) sample_settings
          sample_state_yesterday sample_watch_weak).2.1.battery_low = true)
    ∧ (k91man_face_loop sample_platform (movement_event_t.mk EVENT_TICK 0) sample_settings
          sample_state_yesterday sample_watch_weak).2.2.lap = true :=
  ⟨⟨by decide, by decide⟩,
    (C16_low_battery_indicator sample_platform (movement_event_t.mk EVENT_TICK 0) sample_settings
      sample_state_yesterday sample_watch_weak).1 (by decide) (by decide)⟩

/-- C17: the seconds-only update is consistent with a full redraw.  For a valid date-time `c`,
when a refresh writes the two character cells `a`, `b` at columns 8 and 9, these are characters
8 and 9 (the last two of ten) of the string a full-power full reformat produces for `c`; and for
every `c'` that differs from `c` in the seconds only, characters 0..7 of the full reformat
strings of `c` and `c'` are equal.  The weekday abbreviation is taken to have two characters and
to depend on the date only, and the absolute-time conversion to respect times of day.  The full
reformat string is the one a full reformat in full power pushes at column 0. -/
theorem C17_seconds_path_consistent (P : Platform) (event : movement_event_t)
    (settings : movement_settings_t) (st : k91man_state_t) (w : Watch)
    (hev : is_refresh_event event.event_type = true) (hvalid : valid_date_time w.rtc)
    (hwd2 : weekday_two_chars P) (hwdd : weekday_by_date P)
    (hconv : time_of_day_difference P settings w.rtc) :
    (full_reformat_string P settings w.rtc w).length = 10
    ∧ (∀ a b, display_writes (new_calls w (k91man_face_loop P event settings st w).2.2)
          = [Call.display_character_lp_seconds a 8, Call.display_character_lp_seconds b 9] →
        (full_reformat_string P settings w.rtc w).drop 8 = [Char.ofNat a, Char.ofNat b])
    ∧ (∀ c', agree_to_minute w.rtc c' → c'.second.val ≤ 59 →
        time_of_day_difference P settings c' →
        (full_reformat_string P settings w.rtc w).take 8
          = (full_reformat_string P settings c' w).take 8)
    ∧ (event.event_type ≠ EVENT_LOW_ENERGY_UPDATE →
        full_update (new_calls w (k91man_face_loop P event settings st w).2.2) = true →
        ∃ rest, display_writes (new_calls w (k91man_face_loop P event settings st w).2.2)
          = Call.display_string (full_reformat_string P settings w.rtc w) 0 :: rest) := by
  obtain ⟨hd6, hd8, hlen⟩ := full_string_drop P settings w.rtc w hwd2 hconv
  refine ⟨hlen, ?_, ?_, full_reformat_pushes P event settings st w hev⟩
  · intro a b h
    rw [loop_display P event settings st w hev] at h
    unfold refresh_display_writes at h
    rw [hd8]
    cases hp : refresh_path w.rtc st.previous_date_time event.event_type <;> rw [hp] at h <;>
      dsimp only at h
    · cases hcm : countdown_mode w.rtc <;> rw [hcm] at h
      · simp only [Bool.false_eq_true, if_false, List.cons.injEq,
          Call.display_character_lp_seconds.injEq, and_true] at h ⊢
        obtain ⟨rfl, rfl⟩ := h
        rfl
      · simp only [if_true, List.cons.injEq,
          Call.display_character_lp_seconds.injEq, and_true] at h ⊢
        obtain ⟨rfl, rfl⟩ := h
        rfl
    · split_ifs at h <;> simp at h
    · split_ifs at h <;> simp at h
  · intro c' hagree hs' hc'
    exact full_string_take8 P settings w.rtc c' w hwd2 hwdd hagree hconv hc'
      hvalid.2.2.2.2.2.1 hvalid.2.2.2.2.2.2 hs'

theorem C17_seconds_path_consistent_witness :
    (is_refresh_event (movement_event_t.mk EVENT_TICK 0).event_type = true
      ∧ valid_date_time sample_watch.rtc
      ∧ time_of_day_difference sample_platform sample_settings sample_watch.rtc
      ∧ display_writes (new_calls sample_watch (k91man_face_loop sample_platform
          (movement_event_t.mk EVENT_TICK 0) sample_settings sample_state_running
          sample_watch).2.2)
        = [Call.display_character_lp_seconds 50 8, Call.display_character_lp_seconds 57 9]
      ∧ agree_to_minute sample_watch.rtc sample_afternoon_next
      ∧ sample_afternoon_next.second.val ≤ 59
      ∧ time_of_day_difference sample_platform sample_settings sample_afternoon_next)
    ∧ (full_reformat_string sample_platform sample_settings sample_watch.rtc sample_watch).drop 8
        = [Char.ofNat 50, Char.ofNat 57]
    ∧ (full_reformat_string sample_platform sample_settings sample_watch.rtc sample_watch).take 8
        = (full_reformat_string sample_platform sample_settings sample_afternoon_next
            sample_watch).take 8 :=
  ⟨⟨by decide, by decide, by decide, by decide, by decide, by decide, by decide⟩,
    (C17_seconds_path_consistent sample_platform (movement_event_t.mk EVENT_TICK 0)
      sample_settings sample_state_running sample_watch (by decide) (by decide)
      sample_weekday_two_chars sample_weekday_by_date (by decide)).2.1 50 57 (by decide),
    (C17_seconds_path_consistent sample_platform (movement_event_t.mk EVENT_TICK 0)
      sample_settings sample_state_running sample_watch (by decide) (by decide)
      sample_weekday_two_chars sample_weekday_by_date (by decide)).2.2.1 sample_afternoon_next
      (by decide) (by decide) (by decide)⟩

/-- C18: the minutes update is consistent with a full redraw.  For a valid date-time `c`, when a
refresh pushes a string at column 6, that string is characters 6..9 of the string a full-power
full reformat produces for `c` at column 0; and for every `c'` that agrees with `c` on year,
month, day and hour, characters 0..5 of the full reformat strings of `c` and `c'` are equal.
The weekday abbreviation is taken to have two characters and to depend on the date only, and
the absolute-time conversion to respect times of day. -/
theorem C18_minutes_path_consistent (P : Platform) (event : movement_event_t)
    (settings : movement_settings_t) (st : k91man_state_t) (w : Watch)
    (hev : is_refresh_event event.event_type = true) (hvalid : valid_date_time w.rtc)
    (hwd2 : weekday_two_chars P) (hwdd : weekday_by_date P)
    (hconv : time_of_day_difference P settings w.rtc) :
    (full_reformat_string P settings w.rtc w).length = 10
    ∧ (∀ s, display_writes (new_calls w (k91man_face_loop P event settings st w).2.2)
          = [Call.display_string s 6] →
        (full_reformat_string P settings w.rtc w).drop 6 = s)
    ∧ (∀ c', agree_to_hour w.rtc c' → c'.minute.val ≤ 59 → c'.second.val ≤ 59 →
        time_of_day_difference P settings c' →
        (full_reformat_string P settings w.rtc w).take 6
          = (full_reformat_string P settings c' w).take 6) := by
  obtain ⟨hd6, hd8, hlen⟩ := full_string_drop P settings w.rtc w hwd2 hconv
  refine ⟨hlen, ?_, ?_⟩
  · intro s h
    rw [loop_display P event settings st w hev] at h
    unfold refresh_display_writes at h
    rw [hd6]
    cases hp : refresh_path w.rtc st.previous_date_time event.event_type <;> rw [hp] at h <;>
      dsimp only at h
    · split_ifs at h <;> simp at h
    · cases hcm : countdown_mode w.rtc <;> rw [hcm] at h
      · simp only [Bool.false_eq_true, if_false, List.cons.injEq, Call.display_string.injEq,
          and_true] at h ⊢
        exact h
      · simp only [if_true, List.cons.injEq, Call.display_string.injEq, and_true] at h ⊢
        exact h
    · split_ifs at h <;> simp at h
  · intro c' hagree hm' hs' hc'
    exact full_string_take6 P settings w.rtc c' w hwd2 hwdd hagree hconv hc'
      hvalid.2.2.2.2.2.1 hvalid.2.2.2.2.2.2 hm' hs'

theorem C18_minutes_path_consistent_witness :
    (is_refresh_event (movement_event_t.mk EVENT_TICK 0).event_type = true
      ∧ valid_date_time sample_watch.rtc
      ∧ time_of_day_difference sample_platform sample_settings sample_watch.rtc
      ∧ display_writes (new_calls sample_watch (k91man_face_loop sample_platform
          (movement_event_t.mk EVENT_TICK 0) sample_settings sample_state_minute_ago
          sample_watch).2.2)
        = [Call.display_string ['4', '4', '2', '9'] 6]
      ∧ agree_to_hour sample_watch.rtc sample_afternoon_later
      ∧ sample_afternoon_later.minute.val ≤ 59 ∧ sample_afternoon_later.second.val ≤ 59
      ∧ time_of_day_difference sample_platform sample_settings sample_afternoon_later)
    ∧ (full_reformat_string sample_platform sample_settings sample_watch.rtc sample_watch).drop 6
        = ['4', '4', '2', '9']
    ∧ (full_reformat_string sample_platform sample_settings sample_watch.rtc sample_watch).take 6
        = (full_reformat_string sample_platform sample_settings sample_afternoon_later
            sample_watch).take 6 :=
  ⟨⟨by decide, by decide, by decide, by decide, by decide, by decide, by decide, by decide⟩,
    (C18_minutes_path_consistent sample_platform (movement_event_t.mk EVENT_TICK 0)
      sample_settings sample_state_minute_ago sample_watch (by decide) (by decide)
      sample_weekday_two_chars sample_weekday_by_date (by decide)).2.1 _ (by decide),
    (C18_minutes_path_consistent sample_platform (movement_event_t.mk EVENT_TICK 0)
      sample_settings sample_state_minute_ago sample_watch (by decide) (by decide)
      sample_weekday_two_chars sample_weekday_by_date (by decide)).2.2 sample_afternoon_later
      (by decide) (by decide) (by decide) (by decide)⟩

/-- C19: a change of display mode forces a full redraw.  On a refresh event with previous packed
timestamp `p`, if the mode selected by the hour field of `p` (countdown iff `9 <= hour < 17`)
differs from the mode selected by the current hour, `k91man_face_loop` makes a full reformat;
and whenever it makes a seconds-only or a minutes update, both hours select the same mode. -/
theorem C19_mode_change_forces_full (P : Platform) (event : movement_event_t)
    (settings : movement_settings_t) (st : k91man_state_t) (w : Watch)
    (hev : is_refresh_event event.event_type = true)
    (hp : st.previous_date_time < 4294967296) :
    (countdown_mode (watch_date_time.of_reg st.previous_date_time) ≠ countdown_mode w.rtc →
      full_update (new_calls w (k91man_face_loop P event settings st w).2.2) = true)
    ∧ ((seconds_only_update (new_calls w (k91man_face_loop P event settings st w).2.2) = true
        ∨ minutes_update (new_calls w (k91man_face_loop P event settings st w).2.2) = true) →
      countdown_mode (watch_date_time.of_reg st.previous_date_time) = countdown_mode w.rtc)
    ∧ (countdown_mode w.rtc = true ↔ (9 ≤ w.rtc.hour.val ∧ w.rtc.hour.val < 17)) := by
  rw [seconds_only_update_iff_exists, minutes_update_iff_exists, full_update_iff_exists,
    loop_display P event settings st w hev, seconds_update_iff, minutes_update_iff,
    full_update_iff, refresh_path_full_iff _ _ _ hp, refresh_path_seconds_iff _ _ _ hp,
    refresh_path_minutes_iff _ _ _ hp]
  refine ⟨?_, ?_, countdown_mode_iff w.rtc⟩
  · intro hne
    left
    intro hagree
    exact hne (countdown_mode_congr _ _ hagree.2.2.2).symm
  · rintro (h | h)
    · exact (countdown_mode_congr _ _ h.1.1.2.2.2).symm
    · exact (countdown_mode_congr _ _ h.1.2.2.2).symm

theorem C19_mode_change_forces_full_witness :
    (is_refresh_event (movement_event_t.mk EVENT_TICK 0).event_type = true
      ∧ sample_state_running.previous_date_time < 4294967296
      ∧ seconds_only_update (new_calls sample_watch (k91man_face_loop sample_platform
          (movement_event_t.mk EVENT_TICK 0) sample_settings sample_state_running
          sample_watch).2.2) = true)
    ∧ countdown_mode (watch_date_time.of_reg sample_state_running.previous_date_time)
        = countdown_mode sample_watch.rtc :=
  ⟨⟨by decide, by decide, by decide⟩,
    (C19_mode_change_forces_full sample_platform (movement_event_t.mk EVENT_TICK 0)
      sample_settings sample_state_running sample_watch (by decide) (by decide)).2.1
      (Or.inl (by decide))⟩

/-- C20: the countdown does not depend on the configured timezone.  For two settings, when the
conversion applies the UTC offset to both timestamps and the date is representable at either
offset (no 32-bit wrap-around; a negative offset is a large unsigned value), the remaining time
is the same; it is also the same whenever the conversion respects times of day at both
settings.  Equal remaining times give equal strings from `_format_countdown_to_5pm` and equal
output of the two countdown copies in the loop. -/
theorem C20_timezone_independent (P : Platform) (dt : watch_date_time)
    (s1 s2 : movement_settings_t) (w : Watch) :
    (offset_applied P s1 dt → representable P s1 dt →
      offset_applied P s2 dt → representable P s2 dt →
      countdown_remaining P s1 dt = countdown_remaining P s2 dt)
    ∧ (time_of_day_difference P s1 dt → time_of_day_difference P s2 dt →
      countdown_remaining P s1 dt = countdown_remaining P s2 dt)
    ∧ (countdown_remaining P s1 dt = countdown_remaining P s2 dt →
      (∀ low, (_format_countdown_to_5pm P dt s1 low w).buf
          = (_format_countdown_to_5pm P dt s2 low w).buf)
      ∧ loop_seconds_countdown P dt s1 w = loop_seconds_countdown P dt s2 w
      ∧ loop_minutes_countdown P dt s1 = loop_minutes_countdown P dt s2) := by
  refine ⟨?_, ?_, ?_⟩
  · intro ha1 hr1 ha2 hr2
    rw [remaining_of_offset P s1 dt ha1 hr1, remaining_of_offset P s2 dt ha2 hr2]
  · intro h1 h2
    unfold time_of_day_difference at h1 h2
    unfold countdown_remaining
    omega
  · intro h
    refine ⟨fun low => ?_, ?_, ?_⟩
    · rw [format_countdown_buf, format_countdown_buf, h]
    · rw [loop_seconds_countdown_eq, loop_seconds_countdown_eq, h]
    · rw [loop_minutes_countdown_eq, loop_minutes_countdown_eq, h]

theorem C20_timezone_independent_witness :
    (offset_applied sample_platform sample_settings sample_afternoon
      ∧ representable sample_platform sample_settings sample_afternoon
      ∧ offset_applied sample_platform sample_settings_utc sample_afternoon
      ∧ representable sample_platform sample_settings_utc sample_afternoon
      ∧ _get_tz_offset_seconds sample_platform sample_settings = 4294938496
      ∧ _get_tz_offset_seconds sample_platform sample_settings_utc = 0)
    ∧ countdown_remaining sample_platform sample_settings sample_afternoon
        = countdown_remaining sample_platform sample_settings_utc sample_afternoon :=
  ⟨⟨by decide, by decide, by decide, by decide, by decide, by decide⟩,
    (C20_timezone_independent sample_platform sample_afternoon sample_settings
      sample_settings_utc sample_watch).1 (by decide) (by decide) (by decide) (by decide)⟩

end claims

end K91man
